import Mathlib

/-!
Shallow embedding of the docker_mcp_gateway repository
(src/docker_mcp_gateway/{docker_parser.py, models.py, config.py,
docker_manager.py, proxy.py}), together with theorems settling the
frozen claims about the specification.

Conventions of the embedding:
* Python dicts become insertion-ordered association lists
  (`List (String × α)`) with `lookupA` / `insertA` / `eraseA`.
* Python `int` becomes `Int`; Python truthiness of an optional int
  (`if x:`) becomes `match x with | some v => v ≠ 0 | none => false`,
  spelled out at every use site.
* `datetime.now()` becomes an explicit `now : Nat` parameter; only the
  identity of timestamps matters to the claims.
* Blocking I/O (the Docker engine, the OS bind probe, the HTTP
  upstream) is modelled by explicit oracle values passed in: an
  association list of engine containers, a `bindable : Int → Bool`
  probe, and an `UpstreamOutcome` per proxied request.
-/

namespace DockerGateway

/-! ### Association-list helpers (Python dict semantics) -/

/-- Lookup in an insertion-ordered association list (Python `d.get(k)` /
`d[k]` membership). -/
def lookupA {α : Type} : List (String × α) → String → Option α
  | [], _ => none
  | (k', v) :: rest, k => if k' = k then some v else lookupA rest k

/-- Python `d[k] = v`: replace in place if the key exists, else append. -/
def insertA {α : Type} : List (String × α) → String → α → List (String × α)
  | [], k, v => [(k, v)]
  | (k', v') :: rest, k, v =>
    if k' = k then (k, v) :: rest else (k', v') :: insertA rest k v

/-- Python `del d[k]` (keys are unique, so a filter is equivalent). -/
def eraseA {α : Type} (l : List (String × α)) (k : String) : List (String × α) :=
  l.filter (fun p => p.1 ≠ k)

/-! ### Python primitive helpers

Core `String` routines such as `String.splitOn`, `String.replace`,
`String.trim`, `String.toLower` or `Int` printing are byte-position
based and defined by well-founded recursion, so the kernel cannot
evaluate them; the embedding therefore works on character lists with
its own structurally recursive equivalents (matching Python's string
semantics, which are also character based). -/

/-- Lower-case a string character-wise (ASCII, as both Python and the
source's `.lower()` calls need). -/
def lowerStr (s : String) : String :=
  String.mk (s.data.map Char.toLower)

/-- `s.startswith(p)` / Lean `String.startsWith`. -/
def startsWithStr (s p : String) : Bool :=
  p.data.isPrefixOf s.data

/-- `s.endswith(p)` / Lean `String.endsWith`. -/
def endsWithStr (s p : String) : Bool :=
  p.data.isSuffixOf s.data

/-- Python `str.strip()`: drop whitespace from both ends. -/
def trimStr (s : String) : String :=
  String.mk
    (((s.data.dropWhile Char.isWhitespace).reverse.dropWhile
        Char.isWhitespace).reverse)

/-- Split on every occurrence of a (non-empty) separator, keeping empty
pieces: Python `s.split(sep)`.  The fuel is the input length, which
bounds the number of steps. -/
def splitOnAux (sep : List Char) : Nat → List Char → List Char →
    List (List Char)
  | _, [], acc => [acc.reverse]
  | 0, cs, acc => [acc.reverse ++ cs]
  | fuel + 1, c :: cs, acc =>
    if sep.isPrefixOf (c :: cs) then
      acc.reverse :: splitOnAux sep fuel (cs.drop (sep.length - 1)) []
    else splitOnAux sep fuel cs (c :: acc)

/-- Python `s.split(sep)` on strings (callers pass non-empty `sep`). -/
def splitOnStr (s sep : String) : List String :=
  (splitOnAux sep.data s.data.length s.data []).map (fun cs => String.mk cs)

/-- Replace every (non-overlapping, left-to-right) occurrence of a
non-empty pattern: Python `s.replace(pat, rep)`. -/
def replaceAux (pat rep : List Char) : Nat → List Char → List Char
  | _, [] => []
  | 0, cs => cs
  | fuel + 1, c :: cs =>
    if pat ≠ [] ∧ pat.isPrefixOf (c :: cs) then
      rep ++ replaceAux pat rep fuel (cs.drop (pat.length - 1))
    else c :: replaceAux pat rep fuel cs

/-- Python `s.replace(pat, rep)` on strings. -/
def replaceStr (s pat rep : String) : String :=
  String.mk (replaceAux pat.data rep.data s.data.length s.data)

/-- Split into maximal runs separated by `p`-characters, keeping empty
pieces at separators. -/
def splitBy (p : Char → Bool) : List Char → List (List Char)
  | [] => [[]]
  | c :: cs =>
    match splitBy p cs with
    | [] => if p c then [[], []] else [[c]]
    | t :: ts => if p c then [] :: t :: ts else (c :: t) :: ts

/-- Python `s.split()` with no argument: whitespace runs, no empty
pieces. -/
def splitWsStr (s : String) : List String :=
  ((splitBy Char.isWhitespace s.data).filter (fun t => t ≠ [])).map
    (fun cs => String.mk cs)

/-- Decimal digits of a natural number, least significant first; the
fuel (any bound ≥ the digit count, e.g. `n + 1`) keeps the recursion
structural. -/
def natToRevDigits : Nat → Nat → List Char
  | 0, _ => []
  | fuel + 1, n =>
    if n < 10 then [Char.ofNat (48 + n)]
    else Char.ofNat (48 + n % 10) :: natToRevDigits fuel (n / 10)

/-- Python `str(n)` for a natural number. -/
def natToStr (n : Nat) : String :=
  String.mk (natToRevDigits (n + 1) n).reverse

/-- Python `str(i)` / an f-string interpolation of an int. -/
def intToStr : Int → String
  | .ofNat n => natToStr n
  | .negSucc n => "-" ++ natToStr (n + 1)


/-- Digits of a base-10 numeral, or `none` when the character list is
empty or holds a non-digit (models the digit part of Python `int(str)`;
the rarely used underscore-separator form is not modelled). -/
def digitsToNat (cs : List Char) : Option Nat :=
  if cs = [] then none
  else if cs.all Char.isDigit then
    some (cs.foldl (fun n c => 10 * n + (c.toNat - 48)) 0)
  else none

/-- Python `int(s)`: surrounding whitespace stripped, optional sign,
base-10 digits; `none` models the `ValueError`. -/
def pyInt? (s : String) : Option Int :=
  let t := trimStr s
  match t.toList with
  | '+' :: rest => (digitsToNat rest).map Int.ofNat
  | '-' :: rest => (digitsToNat rest).map (fun n => -(Int.ofNat n))
  | cs => (digitsToNat cs).map Int.ofNat

/-- Substring test on character lists: the needle is a prefix of some
suffix of the hay. -/
def containsSub (needle : List Char) : List Char → Bool
  | [] => needle.isEmpty
  | c :: t => needle.isPrefixOf (c :: t) || containsSub needle t

/-- Python `needle in hay` on strings. -/
def strContains (hay needle : String) : Bool :=
  containsSub needle.toList hay.toList

/-! ### docker_parser.py -/

/-- `ParsedDockerRun` (docker_parser.py).  Ports are `(host, container)`
pairs, as in the source. -/
structure ParsedDockerRun where
  image : String := ""
  name : Option String := none
  ports : List (Int × Int) := []
  env : List (String × String) := []
  volumes : List String := []
  restart_policy : Option String := none
  detach : Bool := false
  interactive : Bool := false
  tty : Bool := false
  network : Option String := none
  labels : List (String × String) := []
  memory : Option String := none
  cpus : Option String := none
  extra_args : List String := []
  raw_command : String := ""
deriving Repr, DecidableEq

/-- `_parse_port_mapping` (docker_parser.py): strip a `/tcp` or `/udp`
suffix, then accept `h:c` or `addr:h:c`; `int` failure yields `none`. -/
def parse_port_mapping (mapping : String) : Option (Int × Int) :=
  let m :=
    if endsWithStr mapping "/tcp" || endsWithStr mapping "/udp" then
      String.mk (mapping.toList.take (mapping.toList.length - 4))
    else mapping
  let parts := splitOnStr m ":"
  match parts with
  | [a, b] =>
    match pyInt? a, pyInt? b with
    | some ha, some cb => some (ha, cb)
    | _, _ => none
  | [_, b, c] =>
    match pyInt? b, pyInt? c with
    | some hb, some cc => some (hb, cc)
    | _, _ => none
  | _ => none

/-- `_parse_env` (docker_parser.py): split on the first `=`; both halves
stripped; no `=` gives an empty value. -/
def parse_env (s : String) : String × String :=
  if s.toList.contains '=' then
    match splitOnStr s "=" with
    | k :: rest => (trimStr k, trimStr (String.intercalate "=" rest))
    | [] => (trimStr s, "")
  else (trimStr s, "")

/-- Python `token.split('=', 1)[1]`. -/
def eqTail (tok : String) : String :=
  match splitOnStr tok "=" with
  | _ :: rest => String.intercalate "=" rest
  | [] => ""

/-- The `-dit`-style combined short boolean flags loop. -/
def applyShortFlags : List Char → ParsedDockerRun → ParsedDockerRun
  | [], r => r
  | c :: cs, r =>
    if c = 'd' then applyShortFlags cs { r with detach := true }
    else if c = 'i' then applyShortFlags cs { r with interactive := true }
    else if c = 't' then applyShortFlags cs { r with tty := true }
    else applyShortFlags cs r

/-- The token-scanning loop of `parse_docker_run` (docker_parser.py
lines 78-266), translated branch for branch in source order.  The first
token that does not start with `-` is taken as the image and the scan
stops; recognised value-taking flags consume the following token;
everything else consumes one token. -/
def parseLoop : List String → ParsedDockerRun → ParsedDockerRun
  | [], r => r
  | tok :: rest, r =>
    if ¬ startsWithStr tok "-" then
      { r with image := tok, extra_args := rest }
    else if tok = "-d" ∨ tok = "--detach" then
      parseLoop rest { r with detach := true }
    else if tok = "-i" ∨ tok = "--interactive" then
      parseLoop rest { r with interactive := true }
    else if tok = "-t" ∨ tok = "--tty" then
      parseLoop rest { r with tty := true }
    else if startsWithStr tok "-" ∧ ¬ startsWithStr tok "--" ∧ tok.length > 2 then
      parseLoop rest (applyShortFlags tok.toList.tail r)
    else if tok = "--name" then
      match rest with
      | v :: rest' => parseLoop rest' { r with name := some v }
      | [] => r
    else if startsWithStr tok "--name=" then
      parseLoop rest { r with name := some (eqTail tok) }
    else if tok = "-p" ∨ tok = "--publish" then
      match rest with
      | v :: rest' =>
        parseLoop rest'
          (match parse_port_mapping v with
           | some pp => { r with ports := r.ports ++ [pp] }
           | none => r)
      | [] => r
    else if startsWithStr tok "-p=" ∨ startsWithStr tok "--publish=" then
      parseLoop rest
        (match parse_port_mapping (eqTail tok) with
         | some pp => { r with ports := r.ports ++ [pp] }
         | none => r)
    else if tok = "-e" ∨ tok = "--env" then
      match rest with
      | v :: rest' =>
        parseLoop rest'
          (let kv := parse_env v
           if kv.1 ≠ "" then { r with env := insertA r.env kv.1 kv.2 } else r)
      | [] => r
    else if startsWithStr tok "-e=" ∨ startsWithStr tok "--env=" then
      parseLoop rest
        (let kv := parse_env (eqTail tok)
         if kv.1 ≠ "" then { r with env := insertA r.env kv.1 kv.2 } else r)
    else if tok = "-v" ∨ tok = "--volume" then
      match rest with
      | v :: rest' => parseLoop rest' { r with volumes := r.volumes ++ [v] }
      | [] => r
    else if startsWithStr tok "-v=" ∨ startsWithStr tok "--volume=" then
      parseLoop rest { r with volumes := r.volumes ++ [eqTail tok] }
    else if tok = "--restart" then
      match rest with
      | v :: rest' => parseLoop rest' { r with restart_policy := some v }
      | [] => r
    else if startsWithStr tok "--restart=" then
      parseLoop rest { r with restart_policy := some (eqTail tok) }
    else if tok = "--network" then
      match rest with
      | v :: rest' => parseLoop rest' { r with network := some v }
      | [] => r
    else if startsWithStr tok "--network=" then
      parseLoop rest { r with network := some (eqTail tok) }
    else if tok = "-l" ∨ tok = "--label" then
      match rest with
      | v :: rest' =>
        parseLoop rest'
          (let kv := parse_env v
           if kv.1 ≠ "" then { r with labels := insertA r.labels kv.1 kv.2 } else r)
      | [] => r
    else if startsWithStr tok "-l=" ∨ startsWithStr tok "--label=" then
      parseLoop rest
        (let kv := parse_env (eqTail tok)
         if kv.1 ≠ "" then { r with labels := insertA r.labels kv.1 kv.2 } else r)
    else if tok = "-m" ∨ tok = "--memory" then
      match rest with
      | v :: rest' => parseLoop rest' { r with memory := some v }
      | [] => r
    else if startsWithStr tok "-m=" ∨ startsWithStr tok "--memory=" then
      parseLoop rest { r with memory := some (eqTail tok) }
    else if tok = "--cpus" then
      match rest with
      | v :: rest' => parseLoop rest' { r with cpus := some v }
      | [] => r
    else if startsWithStr tok "--cpus=" then
      parseLoop rest { r with cpus := some (eqTail tok) }
    else
      parseLoop rest r

/-- shlex mode: outside/inside quotes. -/
inductive SMode where
  | base
  | insq
  | indq
deriving Repr, DecidableEq

/-- Python `shlex.split` in POSIX mode, restricted to the inputs it
receives here: `parse_docker_run` first removes every backslash and
collapses every whitespace run to a single space, so only plain
characters, single spaces, and the two quote characters remain.  The
accumulator is `some cs` once a token has started (so quotes can
produce an empty token).  `none` models the `ValueError` raised on an
unbalanced quote. -/
def shlexRun : SMode → List Char → Option (List Char) → Option (List (List Char))
  | .base, [], none => some []
  | .base, [], some a => some [a]
  | .insq, [], _ => none
  | .indq, [], _ => none
  | .base, c :: cs, acc =>
    if c = ' ' then
      match acc with
      | none => shlexRun .base cs none
      | some a => (shlexRun .base cs none).map (a :: ·)
    else if c = '\'' then shlexRun .insq cs (some (acc.getD []))
    else if c = '"' then shlexRun .indq cs (some (acc.getD []))
    else shlexRun .base cs (some (acc.getD [] ++ [c]))
  | .insq, c :: cs, acc =>
    if c = '\'' then shlexRun .base cs (some (acc.getD []))
    else shlexRun .insq cs (some (acc.getD [] ++ [c]))
  | .indq, c :: cs, acc =>
    if c = '"' then shlexRun .base cs (some (acc.getD []))
    else shlexRun .indq cs (some (acc.getD [] ++ [c]))

/-- `shlex.split(cleaned)`; `none` models the `ValueError` on
unbalanced quoting. -/
def shlexSplit (s : String) : Option (List String) :=
  (shlexRun .base s.toList none).map (List.map (fun cs => String.mk cs))

/-- The command cleanup of `parse_docker_run` lines 60-61: replace
backslash-newline, then every remaining backslash, with a space, and
re-join the whitespace-split words with single spaces. -/
def cleanCommand (command : String) : String :=
  let c1 := replaceStr command "\\\n" " "
  let c2 := replaceStr c1 "\\" " "
  String.intercalate " " (splitWsStr c2)

/-- `parse_docker_run` (docker_parser.py): clean, tokenize, skip the
leading `docker`/`run` words, scan, and require a non-empty image.
`Except.error` models the raised `ValueError`s. -/
def parse_docker_run (command : String) : Except String ParsedDockerRun :=
  let cleaned := cleanCommand command
  match shlexSplit cleaned with
  | none => Except.error "命令解析错误"
  | some tokens =>
    if tokens = [] then Except.error "空命令"
    else
      let rest := tokens.dropWhile (fun t => t = "docker" ∨ t = "run")
      let r := parseLoop rest { raw_command := trimStr command }
      if r.image = "" then Except.error "未找到 Docker 镜像名称"
      else Except.ok r

/-! ### models.py -/

/-- `ContainerConfig` (models.py).  `cpu_limit` is a Python float in the
source; because no claim reads its numeric value, it is modelled as the
raw `--cpus` string, kept only when it passes the Python-`float`
syntax check `pyFloatOk`. -/
structure ContainerConfig where
  name : String
  image : String
  internal_port : Int := 8081
  host_port : Option Int := none
  env : List (String × String) := []
  restart_policy : String := "always"
  labels : List (String × String) := []
  memory_limit : Option String := none
  cpu_limit : Option String := none
  raw_command : Option String := none
deriving Repr, DecidableEq

/-- `ContainerStats` (models.py).  The run-time gauge fields
`memory_usage_mb` / `cpu_percent` are Python floats written only from
live engine samples and read by no claim; they are omitted. -/
structure ContainerStats where
  name : String
  total_requests : Int := 0
  last_access_time : Option Nat := none
  created_at : Option Nat := none
  started_at : Option Nat := none
deriving Repr, DecidableEq

/-- `ContainerInfo` (models.py).  The Python field `stats` is a shared
reference to the `ContainerStats` object held in
`ConfigManager._stats[name]` (every construction site passes
`stats=self.config.get_stats(name)`); the embedding keeps that single
store in `ConfigManagerState.statsMap` and models `__post_init__` in
`mk_container_info` below, so the record itself carries no stats
field. -/
structure ContainerInfo where
  name : String
  config : ContainerConfig
  status : String := "unknown"
  container_id : Option String := none
  internal_url : Option String := none
  external_path : Option String := none
  health_status : String := "unknown"
  host_port : Option Int := none
  error_message : Option String := none
deriving Repr, DecidableEq

/-- Syntax check modelling Python `float(s)` acceptance (optional sign,
digits with an optional point, optional exponent; the `inf`/`nan`
spellings are not modelled).  Only the success/failure of the
conversion is observable in this embedding. -/
def pyFloatOk (s : String) : Bool :=
  let t := (trimStr s).data
  let t := match t with
    | c :: rest => if c = '+' ∨ c = '-' then rest else t
    | [] => t
  let splitAtChar := fun (p : Char → Bool) (cs : List Char) =>
    match cs.findIdx? p with
    | some i => (cs.take i, some (cs.drop (i + 1)))
    | none => (cs, none)
  let (mant, expPart) := splitAtChar (fun c => c = 'e' ∨ c = 'E') t
  let expOk := match expPart with
    | none => true
    | some e =>
      let e := match e with
        | c :: rest => if c = '+' ∨ c = '-' then rest else e
        | [] => e
      e ≠ [] && e.all Char.isDigit
  let (ip, fp) := splitAtChar (fun c => c = '.') mant
  let mantOk := match fp with
    | none => ip ≠ [] && ip.all Char.isDigit
    | some f =>
      (ip ≠ [] || f ≠ []) && ip.all Char.isDigit && f.all Char.isDigit
  mantOk && expOk

/-! ### config.py -/

/-- The state of `ConfigManager` (config.py): the two in-memory caches
plus the persisted files.  `containersFile` mirrors `containers.yaml`
after the last `_save_containers`; `statsFile` mirrors `stats.json`
(name ↦ total_requests) after the last `_save_stats`, and `statsSaves`
counts those writes (it lets theorems observe whether a flush
happened). -/
structure ConfigManagerState where
  containers : List (String × ContainerConfig) := []
  statsMap : List (String × ContainerStats) := []
  containersFile : List (String × ContainerConfig) := []
  statsFile : List (String × Int) := []
  statsSaves : Nat := 0
deriving Repr, DecidableEq

/-- `_save_containers` (config.py). -/
def save_containers (c : ConfigManagerState) : ConfigManagerState :=
  { c with containersFile := c.containers }

/-- `_save_stats` (config.py): writes only each record's
`total_requests`. -/
def save_stats (c : ConfigManagerState) : ConfigManagerState :=
  { c with statsFile := c.statsMap.map (fun p => (p.1, p.2.total_requests)),
           statsSaves := c.statsSaves + 1 }

/-- `get_stats` (config.py): return the shared record for `name`,
creating a fresh one in the store if absent. -/
def get_stats (c : ConfigManagerState) (name : String) :
    ContainerStats × ConfigManagerState :=
  match lookupA c.statsMap name with
  | some st => (st, c)
  | none =>
    let st : ContainerStats := { name := name }
    (st, { c with statsMap := insertA c.statsMap name st })

/-- `add_container` (config.py): store the config, ensure a stats
record exists, persist the containers file. -/
def add_container (c : ConfigManagerState) (config : ContainerConfig) :
    ConfigManagerState :=
  let c := { c with containers := insertA c.containers config.name config }
  let c :=
    if (lookupA c.statsMap config.name).isNone then
      { c with statsMap := insertA c.statsMap config.name { name := config.name } }
    else c
  save_containers c

/-- `remove_container` (config.py). -/
def config_remove_container (c : ConfigManagerState) (name : String) :
    ConfigManagerState × Bool :=
  if (lookupA c.containers name).isSome then
    let c := { c with containers := eraseA c.containers name }
    let c :=
      if (lookupA c.statsMap name).isSome then
        { c with statsMap := eraseA c.statsMap name }
      else c
    (save_stats (save_containers c), true)
  else (c, false)

/-- `increment_requests` (config.py): bump the shared record, stamp the
access time, and flush the stats file when the (just incremented)
counter is a multiple of 100. -/
def increment_requests (now : Nat) (name : String) (c : ConfigManagerState) :
    ConfigManagerState :=
  let g := get_stats c name
  let st : ContainerStats :=
    { g.1 with total_requests := g.1.total_requests + 1,
               last_access_time := some now }
  let c := { g.2 with statsMap := insertA g.2.statsMap name st }
  if st.total_requests % 100 = 0 then save_stats c else c

/-! ### docker_manager.py: engine model and constants -/

def GATEWAY_LABEL : String := "docker-mcp-gateway.managed"
def GATEWAY_NAME_LABEL : String := "docker-mcp-gateway.name"
def NETWORK_NAME : String := "mcp-gateway-network"

/-- One element of `NetworkSettings.Ports[key]` as the Docker engine
reports it: `{'HostIp': ..., 'HostPort': ...}` with optional keys.  The
engine emits either `null` or a list of such objects for each exposed
port; `null` is modelled at the list level (`Option (List PortBinding)`)
since the engine does not put `null` elements inside a non-null
list. -/
structure PortBinding where
  hostIp : Option String := none
  hostPort : Option String := none
deriving Repr, DecidableEq

/-- One value of `NetworkSettings.Networks`: only `IPAddress` is read. -/
structure NetworkEndpoint where
  ipAddress : Option String := none
deriving Repr, DecidableEq

/-- The slice of an engine container object that the manager reads:
id, status, labels, port bindings, network attachments, and the
`State.Health.Status` field. -/
structure EngineContainer where
  id : String := ""
  status : String := ""
  labels : List (String × String) := []
  ports : List (String × Option (List PortBinding)) := []
  networks : List (String × NetworkEndpoint) := []
  health : Option String := none
deriving Repr, DecidableEq

/-- The full manager state: the config store plus
`DockerManager._container_info`. -/
structure ManagerState where
  config : ConfigManagerState := {}
  containerInfo : List (String × ContainerInfo) := []
deriving Repr, DecidableEq

/-- `ContainerInfo.__post_init__` (models.py) at a construction site:
the passed stats object is `get_stats(name)`'s shared record, and
`__post_init__` overwrites its `name` field with the info's name when
they differ.  Returns the updated state together with the constructed
info. -/
def mk_container_info (s : ManagerState) (info : ContainerInfo) :
    ManagerState × ContainerInfo :=
  let g := get_stats s.config info.name
  let s := { s with config := g.2 }
  let s :=
    if g.1.name ≠ info.name then
      { s with config :=
          { s.config with statsMap :=
              (insertA s.config.statsMap info.name
                { g.1 with name := info.name }) } }
    else s
  (s, info)

/-- `_get_host_port_from_container` (docker_manager.py): read
`NetworkSettings.Ports["{internal_port}/tcp"]`; a missing `HostPort`
key falls back to `int(0)`, an unparsable `HostPort` string raises
inside the `try` and yields `None`. -/
def get_host_port_from_container (container : EngineContainer)
    (internal_port : Int) : Option Int :=
  let portKey := intToStr internal_port ++ "/tcp"
  match lookupA container.ports portKey with
  | some (some (b :: _)) =>
    match b.hostPort with
    | some hp => pyInt? hp
    | none => some 0
  | _ => none

/-! ### docker_manager.py: ports -/

/-- The inner loop of `_get_used_ports` over one container's
`NetworkSettings.Ports`: add every truthy `HostPort`; an unparsable
`HostPort` raises `ValueError` inside the surrounding `try`, which
aborts the whole engine scan keeping the ports accumulated so far
(`Except.error` carries that partial accumulator). -/
def add_container_ports : List (String × Option (List PortBinding)) →
    List Int → Except (List Int) (List Int)
  | [], acc => .ok acc
  | (_, none) :: rest, acc => add_container_ports rest acc
  | (_, some bindings) :: rest, acc =>
    match add_binding_ports bindings acc with
    | .ok acc' => add_container_ports rest acc'
    | .error acc' => .error acc'
where
  add_binding_ports : List PortBinding → List Int → Except (List Int) (List Int)
  | [], acc => .ok acc
  | b :: bs, acc =>
    match b.hostPort with
    | some hp =>
      if hp ≠ "" then
        match pyInt? hp with
        | some v => add_binding_ports bs (acc ++ [v])
        | none => .error acc
      else add_binding_ports bs acc
    | none => add_binding_ports bs acc

/-- The engine half of `_get_used_ports`: scan `containers.list(all=True)`;
the first exception stops the scan, keeping what was collected. -/
def add_engine_ports : List EngineContainer → List Int → List Int
  | [], acc => acc
  | c :: cs, acc =>
    match add_container_ports c.ports acc with
    | .ok acc' => add_engine_ports cs acc'
    | .error acc' => acc'

/-- `_get_used_ports` (docker_manager.py): host ports claimed by the
config store (truthy `host_port` only) plus live engine-reported
bindings.  The Python `set` is modelled as a list used only through
membership. -/
def get_used_ports (cfgs : List (String × ContainerConfig))
    (engineAll : List EngineContainer) : List Int :=
  let fromCfg := cfgs.foldl
    (fun acc p =>
      match p.2.host_port with
      | some hp => if hp ≠ 0 then acc ++ [hp] else acc
      | none => acc) []
  add_engine_ports engineAll fromCfg

/-- `_check_port_conflict` (docker_manager.py): falsy port → no
conflict; otherwise conflict when the OS probe fails or the port is in
the ledger.  `bindable` is the `is_port_available` probe oracle. -/
def check_port_conflict (bindable : Int → Bool)
    (cfgs : List (String × ContainerConfig)) (engineAll : List EngineContainer)
    (host_port : Int) : Bool :=
  if host_port = 0 then false
  else if ¬ bindable host_port then true
  else if (get_used_ports cfgs engineAll).contains host_port then true
  else false

/-- `range(AUTO_PORT_START, AUTO_PORT_END + 1)` = `range(18100, 19000)`. -/
def intRange (s : Int) : Nat → List Int
  | 0 => []
  | n + 1 => s :: intRange (s + 1) n

def portRange : List Int := intRange 18100 900

/-- The per-port test of the `_allocate_port` scan:
`port not in used_ports and is_port_available(port)`. -/
def port_ok (bindable : Int → Bool) (used : List Int) (port : Int) : Bool :=
  !(used.contains port) && bindable port

/-- `_allocate_port` (docker_manager.py): try the truthy preferred port
unless `_check_port_conflict` rejects it, else return the first port of
the auto range that is simultaneously absent from the ledger and
bindable; `Except.error` models the `RuntimeError` when the range is
exhausted. -/
def allocate_port (bindable : Int → Bool)
    (cfgs : List (String × ContainerConfig)) (engineAll : List EngineContainer)
    (preferred : Option Int) : Except String Int :=
  let tryPreferred : Option Int :=
    match preferred with
    | some p =>
      if p ≠ 0 then
        if ¬ check_port_conflict bindable cfgs engineAll p then some p else none
      else none
    | none => none
  match tryPreferred with
  | some p => .ok p
  | none =>
    let used := get_used_ports cfgs engineAll
    match portRange.find? (port_ok bindable used) with
    | some port => .ok port
    | none => .error "无法分配端口"

/-! ### docker_manager.py: parse_docker_command -/

/-- The name-derivation step of `parse_docker_command`:
`image.split('/')[-1].split(':')[0]` with `.`/`_` replaced by `-`. -/
def derive_name (image : String) : String :=
  let last := (splitOnStr image "/").getLastD ""
  let base := (splitOnStr last ":").headD ""
  replaceStr (replaceStr base "." "-") "_" "-"

/-- `parse_docker_command` (docker_manager.py): parse, derive a name
when none (or an empty one) was given, adopt the first port mapping
(default internal port 8081), parse the CPU limit tolerantly, and build
the `ContainerConfig`. -/
def parse_docker_command (command : String) : Except String ContainerConfig :=
  match parse_docker_run command with
  | .error e => .error e
  | .ok parsed =>
    let name :=
      match parsed.name with
      | some n => if n ≠ "" then n else derive_name parsed.image
      | none => derive_name parsed.image
    let ip_hp : Int × Option Int :=
      match parsed.ports with
      | (h, cp) :: _ => (cp, some h)
      | [] => (8081, none)
    let cpu_limit :=
      match parsed.cpus with
      | some cstr => if pyFloatOk cstr then some cstr else none
      | none => none
    .ok { name := name
          image := parsed.image
          internal_port := ip_hp.1
          host_port := ip_hp.2
          env := parsed.env
          restart_policy :=
            (match parsed.restart_policy with
             | some rp => if rp ≠ "" then rp else "always"
             | none => "always")
          labels := parsed.labels
          memory_limit := parsed.memory
          cpu_limit := cpu_limit
          raw_command := some command }

/-! ### docker_manager.py: lifecycle operations -/

/-- Python exception classes that escape the manager's operations. -/
inductive PyErr where
  | valueError (msg : String)
  | runtimeError (msg : String)
deriving Repr, DecidableEq

/-- Outcome of a blocking engine call (`images.pull` /
`containers.run`), as distinguished by `create_container`'s `except`
clauses. -/
inductive RunErrKind where
  | imageNotFound
  | apiError
  | genericError
deriving Repr, DecidableEq

/-- The oracle for one `create_container` call: the engine's containers
by name, the `list(all=True)` view, the OS bind probe, whether the
image pull raises, and the run outcome (on success, the container as
reported after `reload()`). -/
structure EngineOracle where
  byName : List (String × EngineContainer) := []
  allContainers : List EngineContainer := []
  bindable : Int → Bool := fun _ => true
  pullFails : Option RunErrKind := none
  runResult : Except RunErrKind EngineContainer := .error .genericError

/-- The exception mapping of `create_container`'s `except` clauses. -/
def mapRunErr (image : String) : RunErrKind → PyErr
  | .imageNotFound => .runtimeError ("镜像不存在: " ++ image)
  | .apiError => .runtimeError "Docker API 错误"
  | .genericError => .runtimeError "创建容器失败"

/-- `_check_name_conflict` (docker_manager.py): conflict when the name
is in the config store, or when the engine has a container with that
name that does not carry the gateway label. -/
def check_name_conflict (o : EngineOracle) (cfg : ConfigManagerState)
    (name : String) : Bool × Option String :=
  if (lookupA cfg.containers name).isSome then
    (true, some ("容器名称 '" ++ name ++ "' 已存在于配置中"))
  else
    match lookupA o.byName name with
    | some container =>
      if lookupA container.labels GATEWAY_LABEL = some "true" then (false, none)
      else (true, some ("容器名称 '" ++ name ++ "' 已被其他服务使用"))
    | none => (false, none)

/-- The stamped timestamps after a successful creation
(`info.stats.created_at = now; info.stats.started_at = now`), written
to the shared stats record. -/
def set_stats_times (s : ManagerState) (name : String) (now : Nat) :
    ManagerState :=
  match lookupA s.config.statsMap name with
  | some st =>
    { s with config :=
        { s.config with statsMap :=
            (insertA s.config.statsMap name
              { st with created_at := some now, started_at := some now }) } }
  | none => s

/-- `stats.started_at = now` on the shared record (used by
start/restart). -/
def set_started (s : ManagerState) (name : String) (now : Nat) :
    ManagerState :=
  match lookupA s.config.statsMap name with
  | some st =>
    { s with config :=
        { s.config with statsMap :=
            (insertA s.config.statsMap name { st with started_at := some now }) } }
  | none => s

/-- `_import_existing_container` (docker_manager.py): best-effort
network attach (an engine-side effect with no manager-state footprint),
adopt the engine's truthy host port, persist the config, build the
cached info. -/
def import_existing_container (s : ManagerState) (name : String)
    (config : ContainerConfig) (container : EngineContainer) :
    ManagerState × ContainerInfo :=
  let config :=
    match get_host_port_from_container container config.internal_port with
    | some hp => if hp ≠ 0 then { config with host_port := some hp } else config
    | none => config
  let s := { s with config := add_container s.config config }
  let internal_url :=
    match config.host_port with
    | some hp =>
      if hp ≠ 0 then "http://localhost:" ++ intToStr hp
      else "http://" ++ name ++ ":" ++ intToStr config.internal_port
    | none => "http://" ++ name ++ ":" ++ intToStr config.internal_port
  let info : ContainerInfo :=
    { name := name, config := config, status := container.status,
      container_id := some container.id, internal_url := some internal_url,
      external_path := some ("/mcp/" ++ name), host_port := config.host_port }
  let si := mk_container_info s info
  ({ si.1 with containerInfo := insertA si.1.containerInfo name si.2 }, si.2)

/-- Python `f"{x}"` on an optional int (`None` prints as `None`). -/
def pyShowOptInt : Option Int → String
  | some v => intToStr v
  | none => "None"

/-- The port phase of `create_container` (lines 464-476): keep a truthy
conflict-free `host_port`, otherwise allocate (preferring the requested
port when there was one). -/
def resolve_host_port (o : EngineOracle) (config : ContainerConfig)
    (s : ManagerState) : Except String (Option Int) :=
  match config.host_port with
  | some hp =>
    if hp ≠ 0 then
      if check_port_conflict o.bindable s.config.containers o.allContainers hp then
        (allocate_port o.bindable s.config.containers o.allContainers (some hp)).map some
      else .ok (some hp)
    else (allocate_port o.bindable s.config.containers o.allContainers none).map some
  | none => (allocate_port o.bindable s.config.containers o.allContainers none).map some

/-- The fresh-creation phase of `create_container` (docker_manager.py
lines 464-558): port resolution, image pull, engine run, engine-port
reconciliation, persistence, and caching of the new `ContainerInfo`.
Factored out of `create_container`; it is entered only when the engine
has no container with the name. -/
def create_fresh (o : EngineOracle) (now : Nat) (config : ContainerConfig)
    (s : ManagerState) : ManagerState × Except PyErr ContainerInfo :=
  let name := config.name
  match resolve_host_port o config s with
  | .error e => (s, .error (.runtimeError e))
  | .ok newHp =>
    let config := { config with host_port := newHp }
    match o.pullFails with
    | some k => (s, .error (mapRunErr config.image k))
    | none =>
      match o.runResult with
      | .error k => (s, .error (mapRunErr config.image k))
      | .ok container =>
        let config :=
          match get_host_port_from_container container config.internal_port with
          | some a =>
            if a ≠ 0 ∧ some a ≠ config.host_port then
              { config with host_port := some a }
            else config
          | none => config
        let s := { s with config := add_container s.config config }
        let internal_url := "http://localhost:" ++ pyShowOptInt config.host_port
        let info : ContainerInfo :=
          { name := name, config := config, status := "running",
            container_id := some container.id,
            internal_url := some internal_url,
            external_path := some ("/mcp/" ++ name),
            host_port := config.host_port }
        let si := mk_container_info s info
        let s := set_stats_times si.1 name now
        let s := { s with containerInfo := insertA s.containerInfo name si.2 }
        (s, .ok si.2)

/-- `create_container` (docker_manager.py).  The returned state is the
manager state at return or at the raise; every `raise` in the source
happens before any state mutation, which the theorems below exploit. -/
def create_container (o : EngineOracle) (now : Nat) (config : ContainerConfig)
    (import_existing : Bool) (s : ManagerState) :
    ManagerState × Except PyErr ContainerInfo :=
  let name := config.name
  let conflict := check_name_conflict o s.config name
  if conflict.1 ∧ ¬ import_existing then
    (s, .error (.valueError (conflict.2.getD "")))
  else
    match lookupA o.byName name with
    | some existing =>
      if import_existing then
        let si := import_existing_container s name config existing
        (si.1, .ok si.2)
      else
        (s, .error (.valueError ("容器 '" ++ name ++ "' 已存在")))
    | none => create_fresh o now config s

/-- The per-name body of `_sync_containers` (docker_manager.py): adopt
the engine's status/id/actual port (persisting a corrected host port),
derive the internal URL, and cache a fresh `ContainerInfo`. -/
def sync_one (engine : List (String × EngineContainer)) (s : ManagerState)
    (name : String) (config0 : ContainerConfig) : ManagerState :=
  let step :
      ContainerConfig × ManagerState × String × Option String × Option Int :=
    match lookupA engine name with
    | some container =>
      (match get_host_port_from_container container config0.internal_port with
       | some a =>
         if a ≠ 0 then
           if config0.host_port ≠ some a then
             let config1 := { config0 with host_port := some a }
             (config1, { s with config := add_container s.config config1 },
              container.status, some container.id, some a)
           else
             (config0, s, container.status, some container.id, some a)
         else (config0, s, container.status, some container.id, config0.host_port)
       | none => (config0, s, container.status, some container.id, config0.host_port))
    | none => (config0, s, "not_created", none, config0.host_port)
  let config := step.1
  let s := step.2.1
  let status := step.2.2.1
  let cid := step.2.2.2.1
  let host_port := step.2.2.2.2
  let internal_url :=
    match host_port with
    | some hp =>
      if hp ≠ 0 then "http://localhost:" ++ intToStr hp
      else "http://" ++ name ++ ":" ++ intToStr config.internal_port
    | none => "http://" ++ name ++ ":" ++ intToStr config.internal_port
  let info : ContainerInfo :=
    { name := name, config := config, status := status, container_id := cid,
      internal_url := some internal_url,
      external_path := some ("/mcp/" ++ name), host_port := host_port }
  let si := mk_container_info s info
  { si.1 with containerInfo := insertA si.1.containerInfo name si.2 }

/-- `_sync_containers` (docker_manager.py): iterate the snapshot of the
config store taken at entry. -/
def sync_containers (engine : List (String × EngineContainer))
    (s : ManagerState) : ManagerState :=
  (s.config.containers).foldl (fun acc p => sync_one engine acc p.1 p.2) s

/-- The observable state updates of `start_container`
(docker_manager.py): re-create from config when the engine has no
container, else mark running and stamp `started_at`. -/
def start_container (o : EngineOracle) (now : Nat) (name : String)
    (s : ManagerState) : ManagerState × Bool :=
  match lookupA o.byName name with
  | none =>
    match lookupA s.config.containers name with
    | some config =>
      let r := create_container o now config true s
      match r.2 with
      | .ok _ => (r.1, true)
      | .error _ => (r.1, false)
    | none => (s, false)
  | some _ =>
    match lookupA s.containerInfo name with
    | some info =>
      let s :=
        { s with containerInfo :=
            (insertA s.containerInfo name { info with status := "running" }) }
      (set_started s info.name now, true)
    | none => (s, true)

/-- The observable state updates of `stop_container`: mark the cached
info exited (the engine stop itself has no manager-state footprint). -/
def stop_container (name : String) (s : ManagerState) : ManagerState × Bool :=
  match lookupA s.containerInfo name with
  | some info =>
    ({ s with containerInfo :=
        (insertA s.containerInfo name { info with status := "exited" }) }, true)
  | none => (s, true)

/-- The observable state updates of `restart_container`: when the
engine has the container, mark running and stamp `started_at`. -/
def restart_container (engine : List (String × EngineContainer)) (now : Nat)
    (name : String) (s : ManagerState) : ManagerState × Bool :=
  match lookupA engine name with
  | some _ =>
    match lookupA s.containerInfo name with
    | some info =>
      let s :=
        { s with containerInfo :=
            (insertA s.containerInfo name { info with status := "running" }) }
      (set_started s info.name now, true)
    | none => (s, true)
  | none => (s, false)

/-- `remove_container` (docker_manager.py), success path: best-effort
engine removal, then drop the config-store entry and the cached info. -/
def remove_container (name : String) (s : ManagerState) :
    ManagerState × Bool :=
  let s := { s with config := (config_remove_container s.config name).1 }
  ({ s with containerInfo := eraseA s.containerInfo name }, true)

/-- One tick of `_check_all_containers_health` for the whole map:
iterate the snapshot of tracked names, adopting the engine's status and
`State.Health.Status` (default `"unknown"`). -/
def health_update (engine : List (String × EngineContainer))
    (s : ManagerState) : ManagerState :=
  (s.containerInfo.map (fun p => p.1)).foldl
    (fun acc name =>
      match lookupA engine name with
      | some c =>
        match lookupA acc.containerInfo name with
        | some info =>
          { acc with containerInfo :=
              (insertA acc.containerInfo name
                { info with status := c.status,
                            health_status := c.health.getD "unknown" }) }
        | none => acc
      | none => acc) s

/-- `record_request` (docker_manager.py): `increment_requests` on the
config store, then — for a tracked name — a second increment of the
same shared stats record plus a fresh access time.  The second write
goes to the record at `info.name`, which is where the aliased object
lives. -/
def record_request (now : Nat) (name : String) (s : ManagerState) :
    ManagerState :=
  let s := { s with config := increment_requests now name s.config }
  match lookupA s.containerInfo name with
  | some info =>
    match lookupA s.config.statsMap info.name with
    | some st =>
      { s with config :=
          { s.config with statsMap :=
              (insertA s.config.statsMap info.name
                { st with total_requests := st.total_requests + 1,
                          last_access_time := some now }) } }
    | none => s
  | none => s

/-! ### docker_manager.py: get_container_internal_url -/

/-- The config lookup at the top of `get_container_internal_url`:
the cached info's config when tracked, else the config store. -/
def config_of (s : ManagerState) (name : String) : Option ContainerConfig :=
  match lookupA s.containerInfo name with
  | some i => some i.config
  | none => lookupA s.config.containers name

/-- Stage 1 of the URL resolution: a truthy live `HostPort` binding for
the configured internal port gives `http://127.0.0.1:{host_port}` (the
raw engine string, exactly as the f-string interpolates it). -/
def url_from_port_binding (container : EngineContainer)
    (config : ContainerConfig) : Option String :=
  let portKey := intToStr config.internal_port ++ "/tcp"
  match lookupA container.ports portKey with
  | some (some (b :: _)) =>
    match b.hostPort with
    | some hp => if hp ≠ "" then some ("http://127.0.0.1:" ++ hp) else none
    | none => none
  | _ => none

/-- Stage 2: the gateway network's truthy `IPAddress`. -/
def url_from_gateway_network (container : EngineContainer)
    (config : ContainerConfig) : Option String :=
  match lookupA container.networks NETWORK_NAME with
  | some ep =>
    match ep.ipAddress with
    | some ip =>
      if ip ≠ "" then
        some ("http://" ++ ip ++ ":" ++ intToStr config.internal_port)
      else none
    | none => none
  | none => none

/-- Stage 3: the first truthy `IPAddress` over all attached networks in
insertion order. -/
def url_from_any_network (nets : List (String × NetworkEndpoint))
    (internal_port : Int) : Option String
  :=
  match nets with
  | [] => none
  | (_, ep) :: rest =>
    match ep.ipAddress with
    | some ip =>
      if ip ≠ "" then some ("http://" ++ ip ++ ":" ++ intToStr internal_port)
      else url_from_any_network rest internal_port
    | none => url_from_any_network rest internal_port

/-- The `try` block of `get_container_internal_url` given the engine's
container: port binding first, then gateway-network IP, then any
network IP. -/
def url_from_engine (container : EngineContainer) (config : ContainerConfig) :
    Option String :=
  match url_from_port_binding container config with
  | some u => some u
  | none =>
    match url_from_gateway_network container config with
    | some u => some u
    | none => url_from_any_network container.networks config.internal_port

/-- The fallback after the `try` block: the cached truthy
`internal_url`, else the default guess
`http://127.0.0.1:{internal_port}`. -/
def cached_or_default (info : Option ContainerInfo) (config : ContainerConfig) :
    String :=
  match info with
  | some i =>
    match i.internal_url with
    | some iu =>
      if iu ≠ "" then iu
      else "http://127.0.0.1:" ++ intToStr config.internal_port
    | none => "http://127.0.0.1:" ++ intToStr config.internal_port
  | none => "http://127.0.0.1:" ++ intToStr config.internal_port

/-- `get_container_internal_url` (docker_manager.py): `None` only when
neither the cache nor the config store knows the name; otherwise the
live-engine stages, then the cached URL, then the default guess. -/
def get_container_internal_url (engine : List (String × EngineContainer))
    (s : ManagerState) (name : String) : Option String :=
  match config_of s name with
  | none => none
  | some config =>
    let fromEngine :=
      match lookupA engine name with
      | none => none
      | some container => url_from_engine container config
    match fromEngine with
    | some u => some u
    | none => some (cached_or_default (lookupA s.containerInfo name) config)

/-! ### proxy.py -/

/-- The inbound request as `proxy_request` reads it: method, headers
(Starlette lower-cases header names; the embedding keeps whatever list
is supplied), the raw query string, and the body bytes. -/
structure HttpRequest where
  method : String := "GET"
  headers : List (String × String) := []
  queryParams : String := ""
  body : String := ""
deriving Repr, DecidableEq

/-- The upstream response as httpx reports it. -/
structure UpstreamResponse where
  status_code : Nat := 200
  headers : List (String × String) := []
  content : String := ""
deriving Repr, DecidableEq

/-- Outcome of the forwarded `client.request(...)` call, matching the
`except` clauses of `proxy_request`: success, `httpx.ConnectError`,
`httpx.TimeoutException`, or any other exception. -/
inductive UpstreamOutcome where
  | success (resp : UpstreamResponse)
  | connectError (msg : String)
  | timedOut (msg : String)
  | otherError (msg : String)
deriving Repr, DecidableEq

/-- The FastAPI `Response` (or `StreamingResponse` when `streaming`)
returned to the client. -/
structure ProxyResponse where
  content : String := ""
  status_code : Nat := 200
  headers : List (String × String) := []
  media_type : Option String := none
  streaming : Bool := false
deriving Repr, DecidableEq

/-- What `proxy_request` actually sends upstream. -/
structure SentRequest where
  method : String := "GET"
  url : String := ""
  headers : List (String × String) := []
  body : String := ""
deriving Repr, DecidableEq

/-- The hop-by-hop header set of proxy.py. -/
def hop_by_hop : List String :=
  ["connection", "keep-alive", "proxy-authenticate", "proxy-authorization",
   "te", "trailers", "transfer-encoding", "upgrade", "host"]

/-- The request-direction filter: keep headers whose lower-cased name
is not hop-by-hop. -/
def strip_hop (headers : List (String × String)) : List (String × String) :=
  headers.filter (fun kv => !(hop_by_hop.contains (lowerStr kv.1)))

/-- httpx's case-insensitive `response.headers.get(key, '')` (keys are
matched lower-cased; `key` is passed already lower-case). -/
def header_get : List (String × String) → String → Option String
  | [], _ => none
  | (k, v) :: rest, key => if lowerStr k = key then some v else header_get rest key

/-- `_handle_sse_response` (proxy.py): relay the byte stream, dropping
`transfer-encoding` and `content-encoding`, forcing the
`text/event-stream` media type. -/
def handle_sse_response (r : UpstreamResponse) : ProxyResponse :=
  { content := r.content
    status_code := r.status_code
    headers := r.headers.filter
      (fun kv => (lowerStr kv.1) ≠ "transfer-encoding" ∧
                 (lowerStr kv.1) ≠ "content-encoding")
    media_type := some "text/event-stream"
    streaming := true }

/-- `proxy_request` (proxy.py): build the full URL (query string
appended verbatim when truthy), strip hop-by-hop request headers, send,
and map the outcome: SSE responses stream; plain responses are buffered
with hop-by-hop plus `content-encoding` stripped; `ConnectError` ↦ 502,
`TimeoutException` ↦ 504, anything else ↦ 500, each with a JSON error
body — the function is total, so no failure propagates. -/
def proxy_request (req : HttpRequest) (target_url : String)
    (outcome : UpstreamOutcome) : SentRequest × ProxyResponse :=
  let full_url :=
    if req.queryParams ≠ "" then target_url ++ "?" ++ req.queryParams
    else target_url
  let headers := strip_hop req.headers
  let sent : SentRequest :=
    { method := req.method, url := full_url, headers := headers,
      body := req.body }
  let resp :=
    match outcome with
    | .success r =>
      let content_type := (header_get r.headers "content-type").getD ""
      if strContains content_type "text/event-stream" then
        handle_sse_response r
      else
        { content := r.content
          status_code := r.status_code
          headers := r.headers.filter
            (fun kv => !(hop_by_hop.contains (lowerStr kv.1)) &&
                       (lowerStr kv.1) ≠ "content-encoding") }
    | .connectError m =>
      { content := "\x7b\"error\": \"容器连接失败: " ++ m ++ "\"\x7d"
        status_code := 502
        media_type := some "application/json" }
    | .timedOut _ =>
      { content := "\x7b\"error\": \"请求超时\"\x7d"
        status_code := 504
        media_type := some "application/json" }
    | .otherError m =>
      { content := "\x7b\"error\": \"代理错误: " ++ m ++ "\"\x7d"
        status_code := 500
        media_type := some "application/json" }
  (sent, resp)

/-! ### Lemmas about the port scan -/

theorem mem_intRange {q s : Int} {n : Nat} :
    q ∈ intRange s n ↔ s ≤ q ∧ q < s + n := by
  induction n generalizing s with
  | zero =>
    constructor
    · intro h
      exact absurd h (List.not_mem_nil q)
    · intro h
      exfalso
      omega
  | succ n ih =>
    simp only [intRange, List.mem_cons, ih]
    constructor
    · rintro (rfl | ⟨h1, h2⟩)
      · constructor <;> omega
      · constructor <;> omega
    · rintro ⟨h1, h2⟩
      rcases eq_or_lt_of_le h1 with rfl | h1'
      · exact Or.inl rfl
      · exact Or.inr ⟨by omega, by omega⟩

theorem find?_intRange_eq_some {p : Int → Bool} {s q : Int} {n : Nat} :
    (intRange s n).find? p = some q ↔
      (s ≤ q ∧ q < s + n ∧ p q = true ∧
        ∀ r : Int, s ≤ r → r < q → p r = false) := by
  induction n generalizing s with
  | zero =>
    constructor
    · intro h
      exact absurd h (by simp [intRange])
    · rintro ⟨h1, h2, _⟩
      exfalso
      omega
  | succ n ih =>
    rw [show intRange s (n + 1) = s :: intRange (s + 1) n from rfl]
    cases hp : p s with
    | true =>
      rw [List.find?_cons_of_pos _ hp]
      constructor
      · rintro ⟨rfl⟩
        exact ⟨le_refl _, by omega, hp, fun r h1 h2 => absurd h1 (by omega)⟩
      · rintro ⟨h1, h2, h3, h4⟩
        rcases eq_or_lt_of_le h1 with rfl | h1'
        · rfl
        · exact absurd hp (by simp [h4 s (le_refl _) h1'])
    | false =>
      rw [List.find?_cons_of_neg _ (by simp [hp]), ih]
      constructor
      · rintro ⟨h1, h2, h3, h4⟩
        refine ⟨by omega, by omega, h3, ?_⟩
        intro r hr1 hr2
        rcases eq_or_lt_of_le hr1 with rfl | hr1'
        · exact hp
        · exact h4 r (by omega) hr2
      · rintro ⟨h1, h2, h3, h4⟩
        have hsq : s < q := by
          rcases eq_or_lt_of_le h1 with rfl | h'
          · rw [hp] at h3
            exact absurd h3 (by simp)
          · exact h'
        refine ⟨by omega, by omega, h3, ?_⟩
        intro r hr1 hr2
        exact h4 r (by omega) hr2

theorem find?_intRange_eq_none {p : Int → Bool} {s : Int} {n : Nat} :
    (intRange s n).find? p = none ↔
      ∀ r ∈ intRange s n, p r = false := by
  rw [List.find?_eq_none]
  constructor
  · intro h r hr
    have := h r hr
    simpa using this
  · intro h r hr
    simp [h r hr]

/-! ### Association-list lemmas -/

theorem lookupA_insertA {α : Type} (l : List (String × α)) (k k' : String)
    (v : α) :
    lookupA (insertA l k v) k' = if k = k' then some v else lookupA l k' := by
  induction l with
  | nil =>
    by_cases h : k = k' <;> simp [insertA, lookupA, h]
  | cons p rest ih =>
    obtain ⟨pk, pv⟩ := p
    by_cases h1 : pk = k
    · subst h1
      by_cases h2 : pk = k' <;> simp [insertA, lookupA, h2]
    · by_cases h2 : pk = k'
      · subst h2
        have h3 : ¬ k = pk := fun h => h1 h.symm
        simp [insertA, h1, lookupA, h3]
      · simp [insertA, h1, lookupA, h2, ih]

theorem mem_insertA {α : Type} {l : List (String × α)} {k : String} {v : α}
    {p : String × α} (hp : p ∈ insertA l k v) : p = (k, v) ∨ p ∈ l := by
  induction l with
  | nil =>
    simp [insertA] at hp
    exact Or.inl hp
  | cons q rest ih =>
    obtain ⟨qk, qv⟩ := q
    by_cases h : qk = k
    · subst h
      simp only [insertA, if_pos rfl] at hp
      cases hp with
      | head => exact Or.inl rfl
      | tail _ hmem => exact Or.inr (List.mem_cons_of_mem _ hmem)
    · simp only [insertA, if_neg h] at hp
      cases hp with
      | head => exact Or.inr (List.mem_cons_self _ _)
      | tail _ hmem =>
        rcases ih hmem with h' | h'
        · exact Or.inl h'
        · exact Or.inr (List.mem_cons_of_mem _ h')

theorem mem_eraseA {α : Type} {l : List (String × α)} {k : String}
    {p : String × α} (hp : p ∈ eraseA l k) : p ∈ l :=
  List.mem_of_mem_filter hp

theorem lookupA_isSome_insertA {α : Type} {l : List (String × α)}
    {k k' : String} {v : α} (h : (lookupA l k').isSome) :
    (lookupA (insertA l k v) k').isSome := by
  rw [lookupA_insertA]
  by_cases hk : k = k' <;> simp [hk, h]

/-! ### Lemmas about create_container -/

theorem create_fresh_error_state {o : EngineOracle} {now : Nat}
    {config : ContainerConfig} {s : ManagerState} {e : PyErr}
    (h : (create_fresh o now config s).2 = .error e) :
    (create_fresh o now config s).1 = s := by
  revert h
  unfold create_fresh
  dsimp only
  split
  · intro _
    rfl
  · split
    · intro _
      rfl
    · split
      · intro _
        rfl
      · intro h
        exact absurd h (by simp)

theorem mapRunErr_ne_value (image : String) (k : RunErrKind) (m : String) :
    mapRunErr image k ≠ .valueError m := by
  cases k <;> simp [mapRunErr]

theorem create_fresh_no_value_error {o : EngineOracle} {now : Nat}
    {config : ContainerConfig} {s : ManagerState} {m : String} :
    (create_fresh o now config s).2 ≠ .error (.valueError m) := by
  unfold create_fresh
  dsimp only
  split
  · simp
  · split
    · intro h
      exact mapRunErr_ne_value _ _ _ (Except.error.inj h)
    · split
      · intro h
        exact mapRunErr_ne_value _ _ _ (Except.error.inj h)
      · simp

/-! ### Spec-side image-scan skeleton (for C9) -/

/-- The flags of `parse_docker_run` that consume the following token as
their value (the claim's "flag value"). -/
def valueFlags : List String :=
  ["--name", "-p", "--publish", "-e", "--env", "-v", "--volume",
   "--restart", "--network", "-l", "--label", "-m", "--memory", "--cpus"]

/-- Modelled from the spec's words: the image token is the first token
that is not a flag (does not start with `-`) and not the value of a
recognised value-taking flag; `none` when no such token remains. -/
def findImage : List String → Option String
  | [] => none
  | tok :: rest =>
    if ¬ startsWithStr tok "-" then some tok
    else if tok ∈ valueFlags then
      match rest with
      | [] => none
      | _ :: rest' => findImage rest'
    else findImage rest

/-- Modelled from the spec's words (the claim's failure condition):
token splitting fails on unbalanced quoting, or no image token is
found. -/
def spec_parse_fails (command : String) : Bool :=
  match shlexSplit (cleanCommand command) with
  | none => true
  | some toks =>
    (findImage (toks.dropWhile (fun t => t = "docker" ∨ t = "run"))).isNone

theorem applyShortFlags_image (cs : List Char) (r : ParsedDockerRun) :
    (applyShortFlags cs r).image = r.image := by
  induction cs generalizing r with
  | nil => rfl
  | cons c cs ih =>
    by_cases hd : c = 'd'
    · simp [applyShortFlags, hd, ih]
    · by_cases hi : c = 'i'
      · simp [applyShortFlags, hd, hi, ih]
      · by_cases ht : c = 't'
        · simp [applyShortFlags, hd, hi, ht, ih]
        · simp [applyShortFlags, hd, hi, ht, ih]

/-! ### parseLoop image characterisation (for C9) -/


theorem or2_transfer {tok a b : String} (h : tok = a ∨ tok = b)
    (P : String → Prop) (ha : P a) (hb : P b) : P tok := by
  rcases h with rfl | rfl <;> assumption

theorem combined_not_valueFlag {tok : String}
    (h1 : startsWithStr tok "--" = false) (h2 : tok.length > 2) :
    tok ∉ valueFlags := by
  intro hmem
  simp only [valueFlags, List.mem_cons, List.not_mem_nil, or_false] at hmem
  rcases hmem with rfl|rfl|rfl|rfl|rfl|rfl|rfl|rfl|rfl|rfl|rfl|rfl|rfl|rfl
  all_goals first
    | exact absurd h1 (by decide)
    | exact absurd h2 (by decide)

theorem not_mem_valueFlags_of_prefix (pre : String) {tok : String}
    (hpre : startsWithStr tok pre = true)
    (hall : ∀ t ∈ valueFlags, startsWithStr t pre = false) :
    tok ∉ valueFlags := by
  intro hmem
  have hx := hall tok hmem
  rw [hpre] at hx
  cases hx

theorem or_not_mem_valueFlags {tok : String} {p q : String}
    (h0 : startsWithStr tok p = true ∨ startsWithStr tok q = true)
    (hp : ∀ t ∈ valueFlags, startsWithStr t p = false)
    (hq : ∀ t ∈ valueFlags, startsWithStr t q = false) :
    tok ∉ valueFlags := by
  rcases h0 with h0 | h0
  · exact not_mem_valueFlags_of_prefix p h0 hp
  · exact not_mem_valueFlags_of_prefix q h0 hq

theorem unknown_not_valueFlag {tok : String}
    (hname : ¬ tok = "--name") (hp : ¬(tok = "-p" ∨ tok = "--publish"))
    (he : ¬(tok = "-e" ∨ tok = "--env")) (hv : ¬(tok = "-v" ∨ tok = "--volume"))
    (hre : ¬ tok = "--restart") (hnw : ¬ tok = "--network")
    (hl : ¬(tok = "-l" ∨ tok = "--label")) (hm : ¬(tok = "-m" ∨ tok = "--memory"))
    (hc : ¬ tok = "--cpus") : tok ∉ valueFlags := by
  intro hmem
  simp only [valueFlags, List.mem_cons, List.not_mem_nil, or_false] at hmem
  rcases hmem with rfl|rfl|rfl|rfl|rfl|rfl|rfl|rfl|rfl|rfl|rfl|rfl|rfl|rfl <;>
    simp_all

theorem parseLoop_image (toks : List String) (r : ParsedDockerRun) :
    (parseLoop toks r).image = (findImage toks).getD r.image := by
  induction toks, r using parseLoop.induct
  case case1 => rfl
  case case2 =>
    rename_i tok rest r h
    rw [parseLoop.eq_def, findImage.eq_def]
    simp only [h, not_false_iff, Bool.false_eq_true, if_true, ite_true, Option.getD_some]
  case case3 =>
    rename_i h1 hor ih
    have hnm := or2_transfer hor (fun t => t ∉ valueFlags) (by decide) (by decide)
    rw [parseLoop.eq_def, findImage.eq_def]
    simp only [h1, hor, hnm, not_not, not_true, not_false_iff, Bool.false_eq_true, and_true, true_and, and_self, and_false, false_and, or_false, false_or, or_self, if_true, if_false,
      ite_true, ite_false, eq_self_iff_true, Option.getD_none]
    exact ih.trans (by rfl)
  case case4 =>
    rename_i h1 h2 hor ih
    have hnm := or2_transfer hor (fun t => t ∉ valueFlags) (by decide) (by decide)
    rw [parseLoop.eq_def, findImage.eq_def]
    simp only [h1, h2, hor, hnm, not_not, not_true, not_false_iff, Bool.false_eq_true, and_true, true_and, and_self, and_false, false_and, or_false, false_or, or_self, if_true,
      if_false, ite_true, ite_false, eq_self_iff_true, Option.getD_none]
    exact ih.trans (by rfl)
  case case5 =>
    rename_i h1 h2 h3 hor ih
    have hnm := or2_transfer hor (fun t => t ∉ valueFlags) (by decide) (by decide)
    rw [parseLoop.eq_def, findImage.eq_def]
    simp only [h1, h2, h3, hor, hnm, not_not, not_true, not_false_iff, Bool.false_eq_true, and_true, true_and, and_self, and_false, false_and, or_false, false_or, or_self, if_true,
      if_false, ite_true, ite_false, eq_self_iff_true, Option.getD_none]
    exact ih.trans (by rfl)
  case case6 =>
    rename_i h1 h2 h3 h4 hc ih
    have hnm := combined_not_valueFlag (by simpa using hc.2.1) hc.2.2
    rw [parseLoop.eq_def, findImage.eq_def]
    simp only [h1, h2, h3, h4, hc, hnm, not_not, not_true, not_false_iff, Bool.false_eq_true, and_true, true_and, and_self, and_false, false_and, or_false, false_or, or_self,
      if_true, if_false, ite_true, ite_false, eq_self_iff_true, Option.getD_none]
    exact ih.trans (by rw [applyShortFlags_image])
  case case7 =>
    rename_i h1 h2 h3 h4 h5 ih
    have hmem : ("--name" : String) ∈ valueFlags := by decide
    rw [parseLoop.eq_def, findImage.eq_def]
    simp only [h1, h2, h3, h4, h5, hmem, not_not, not_true, not_false_iff, Bool.false_eq_true, and_true, true_and, and_self, and_false, false_and, or_false, false_or, or_self,
      if_true, if_false, ite_true, ite_false, eq_self_iff_true]
    exact ih.trans (by rfl)
  case case8 =>
    rename_i h1 h2 h3 h4 h5
    have hmem : ("--name" : String) ∈ valueFlags := by decide
    rw [parseLoop.eq_def, findImage.eq_def]
    simp only [h1, h2, h3, h4, h5, hmem, not_not, not_true, not_false_iff, Bool.false_eq_true, and_true, true_and, and_self, and_false, false_and, or_false, false_or, or_self,
      if_true, if_false, ite_true, ite_false, eq_self_iff_true, Option.getD_none]
  case case9 =>
    rename_i h1 h2 h3 h4 h5 h6 h0 ih
    have hnm := not_mem_valueFlags_of_prefix "--name=" h0 (by decide)
    rw [parseLoop.eq_def, findImage.eq_def]
    simp only [h1, h2, h3, h4, h5, h6, h0, hnm, not_not, not_true, not_false_iff, Bool.false_eq_true, and_true, true_and, and_self, and_false, false_and, or_false, false_or, or_self,
      if_true, if_false, ite_true, ite_false, eq_self_iff_true, Option.getD_none]
    exact ih.trans (by rfl)
  case case10 =>
    rename_i h1 h2 h3 h4 h5 h6 h7 hor k rest ih
    have hmem := or2_transfer hor (fun t => t ∈ valueFlags) (by decide) (by decide)
    rw [parseLoop.eq_def, findImage.eq_def]
    simp only [h1, h2, h3, h4, h5, h6, h7, hor, hmem, not_not, not_true,
      not_false_iff, Bool.false_eq_true, and_true, true_and, and_self, and_false, false_and, or_false, false_or, or_self, if_true, if_false, ite_true, ite_false, eq_self_iff_true]
    exact ih.trans (by cases parse_port_mapping k <;> rfl)
  case case11 =>
    rename_i h1 h2 h3 h4 h5 h6 h7 hor
    have hmem := or2_transfer hor (fun t => t ∈ valueFlags) (by decide) (by decide)
    rw [parseLoop.eq_def, findImage.eq_def]
    simp only [h1, h2, h3, h4, h5, h6, h7, hor, hmem, not_not, not_true,
      not_false_iff, Bool.false_eq_true, and_true, true_and, and_self, and_false, false_and, or_false, false_or, or_self, if_true, if_false, ite_true, ite_false, eq_self_iff_true,
      Option.getD_none]
  case case12 =>
    rename_i h1 h2 h3 h4 h5 h6 h7 h8 h0 ih
    have hnm := or_not_mem_valueFlags h0 (by decide) (by decide)
    rw [parseLoop.eq_def, findImage.eq_def]
    simp only [h1, h2, h3, h4, h5, h6, h7, h8, h0, hnm, not_not, not_true,
      not_false_iff, Bool.false_eq_true, and_true, true_and, and_self, and_false, false_and, or_false, false_or, or_self, if_true, if_false, ite_true, ite_false, eq_self_iff_true,
      Option.getD_none]
    exact ih.trans (by cases parse_port_mapping (eqTail _) <;> rfl)
  case case13 =>
    rename_i h1 h2 h3 h4 h5 h6 h7 h8 h9 hor k rest ih
    have hmem := or2_transfer hor (fun t => t ∈ valueFlags) (by decide) (by decide)
    rw [parseLoop.eq_def, findImage.eq_def]
    simp only [h1, h2, h3, h4, h5, h6, h7, h8, h9, hor, hmem, not_not, not_true,
      not_false_iff, Bool.false_eq_true, and_true, true_and, and_self, and_false, false_and, or_false, false_or, or_self, if_true, if_false, ite_true, ite_false, eq_self_iff_true]
    refine ih.trans ?_
    by_cases hk : (parse_env k).1 ≠ "" <;> simp [hk]
  case case14 =>
    rename_i h1 h2 h3 h4 h5 h6 h7 h8 h9 hor
    have hmem := or2_transfer hor (fun t => t ∈ valueFlags) (by decide) (by decide)
    rw [parseLoop.eq_def, findImage.eq_def]
    simp only [h1, h2, h3, h4, h5, h6, h7, h8, h9, hor, hmem, not_not, not_true,
      not_false_iff, Bool.false_eq_true, and_true, true_and, and_self, and_false, false_and, or_false, false_or, or_self, if_true, if_false, ite_true, ite_false, eq_self_iff_true,
      Option.getD_none]
  case case15 =>
    rename_i tok rest r h1 h2 h3 h4 h5 h6 h7 h8 h9 h10 h0 ih
    have hnm := or_not_mem_valueFlags h0 (by decide) (by decide)
    rw [parseLoop.eq_def, findImage.eq_def]
    simp only [h1, h2, h3, h4, h5, h6, h7, h8, h9, h10, h0, hnm, not_not,
      not_true, not_false_iff, Bool.false_eq_true, and_true, true_and, and_self, and_false, false_and, or_false, false_or, or_self, if_true, if_false, ite_true, ite_false,
      eq_self_iff_true, Option.getD_none]
    refine ih.trans ?_
    by_cases hk : (parse_env (eqTail tok)).1 ≠ "" <;> simp [hk]
  case case16 =>
    rename_i h1 h2 h3 h4 h5 h6 h7 h8 h9 h10 h11 hor k rest ih
    have hmem := or2_transfer hor (fun t => t ∈ valueFlags) (by decide) (by decide)
    rw [parseLoop.eq_def, findImage.eq_def]
    simp only [h1, h2, h3, h4, h5, h6, h7, h8, h9, h10, h11, hor, hmem, not_not,
      not_true, not_false_iff, Bool.false_eq_true, and_true, true_and, and_self, and_false, false_and, or_false, false_or, or_self, if_true, if_false, ite_true, ite_false,
      eq_self_iff_true]
    exact ih.trans (by rfl)
  case case17 =>
    rename_i h1 h2 h3 h4 h5 h6 h7 h8 h9 h10 h11 hor
    have hmem := or2_transfer hor (fun t => t ∈ valueFlags) (by decide) (by decide)
    rw [parseLoop.eq_def, findImage.eq_def]
    simp only [h1, h2, h3, h4, h5, h6, h7, h8, h9, h10, h11, hor, hmem, not_not,
      not_true, not_false_iff, Bool.false_eq_true, and_true, true_and, and_self, and_false, false_and, or_false, false_or, or_self, if_true, if_false, ite_true, ite_false,
      eq_self_iff_true, Option.getD_none]
  case case18 =>
    rename_i h1 h2 h3 h4 h5 h6 h7 h8 h9 h10 h11 h12 h0 ih
    have hnm := or_not_mem_valueFlags h0 (by decide) (by decide)
    rw [parseLoop.eq_def, findImage.eq_def]
    simp only [h1, h2, h3, h4, h5, h6, h7, h8, h9, h10, h11, h12, h0, hnm,
      not_not, not_true, not_false_iff, Bool.false_eq_true, and_true, true_and, and_self, and_false, false_and, or_false, false_or, or_self, if_true, if_false, ite_true, ite_false,
      eq_self_iff_true, Option.getD_none]
    exact ih.trans (by rfl)
  case case19 =>
    rename_i h1 h2 h3 h4 h5 h6 h7 h8 h9 h10 h11 h12 h13 ih
    have hmem : ("--restart" : String) ∈ valueFlags := by decide
    rw [parseLoop.eq_def, findImage.eq_def]
    simp only [h1, h2, h3, h4, h5, h6, h7, h8, h9, h10, h11, h12, h13, hmem,
      not_not, not_true, not_false_iff, Bool.false_eq_true, and_true, true_and, and_self, and_false, false_and, or_false, false_or, or_self, if_true, if_false, ite_true, ite_false,
      eq_self_iff_true]
    exact ih.trans (by rfl)
  case case20 =>
    rename_i h1 h2 h3 h4 h5 h6 h7 h8 h9 h10 h11 h12 h13
    have hmem : ("--restart" : String) ∈ valueFlags := by decide
    rw [parseLoop.eq_def, findImage.eq_def]
    simp only [h1, h2, h3, h4, h5, h6, h7, h8, h9, h10, h11, h12, h13, hmem,
      not_not, not_true, not_false_iff, Bool.false_eq_true, and_true, true_and, and_self, and_false, false_and, or_false, false_or, or_self, if_true, if_false, ite_true, ite_false,
      eq_self_iff_true, Option.getD_none]
  case case21 =>
    rename_i h1 h2 h3 h4 h5 h6 h7 h8 h9 h10 h11 h12 h13 h14 h0 ih
    have hnm := not_mem_valueFlags_of_prefix "--restart=" h0 (by decide)
    rw [parseLoop.eq_def, findImage.eq_def]
    simp only [h1, h2, h3, h4, h5, h6, h7, h8, h9, h10, h11, h12, h13, h14, h0,
      hnm, not_not, not_true, not_false_iff, Bool.false_eq_true, and_true, true_and, and_self, and_false, false_and, or_false, false_or, or_self, if_true, if_false, ite_true,
      ite_false, eq_self_iff_true, Option.getD_none]
    exact ih.trans (by rfl)
  case case22 =>
    rename_i h1 h2 h3 h4 h5 h6 h7 h8 h9 h10 h11 h12 h13 h14 h15 ih
    have hmem : ("--network" : String) ∈ valueFlags := by decide
    rw [parseLoop.eq_def, findImage.eq_def]
    simp only [h1, h2, h3, h4, h5, h6, h7, h8, h9, h10, h11, h12, h13, h14, h15,
      hmem, not_not, not_true, not_false_iff, Bool.false_eq_true, and_true, true_and, and_self, and_false, false_and, or_false, false_or, or_self, if_true, if_false, ite_true,
      ite_false, eq_self_iff_true]
    exact ih.trans (by rfl)
  case case23 =>
    rename_i h1 h2 h3 h4 h5 h6 h7 h8 h9 h10 h11 h12 h13 h14 h15
    have hmem : ("--network" : String) ∈ valueFlags := by decide
    rw [parseLoop.eq_def, findImage.eq_def]
    simp only [h1, h2, h3, h4, h5, h6, h7, h8, h9, h10, h11, h12, h13, h14, h15,
      hmem, not_not, not_true, not_false_iff, Bool.false_eq_true, and_true, true_and, and_self, and_false, false_and, or_false, false_or, or_self, if_true, if_false, ite_true,
      ite_false, eq_self_iff_true, Option.getD_none]
  case case24 =>
    rename_i h1 h2 h3 h4 h5 h6 h7 h8 h9 h10 h11 h12 h13 h14 h15 h16 h0 ih
    have hnm := not_mem_valueFlags_of_prefix "--network=" h0 (by decide)
    rw [parseLoop.eq_def, findImage.eq_def]
    simp only [h1, h2, h3, h4, h5, h6, h7, h8, h9, h10, h11, h12, h13, h14, h15,
      h16, h0, hnm, not_not, not_true, not_false_iff, Bool.false_eq_true, and_true, true_and, and_self, and_false, false_and, or_false, false_or, or_self, if_true, if_false,
      ite_true, ite_false, eq_self_iff_true, Option.getD_none]
    exact ih.trans (by rfl)
  case case25 =>
    rename_i h1 h2 h3 h4 h5 h6 h7 h8 h9 h10 h11 h12 h13 h14 h15 h16 h17 hor k
      rest ih
    have hmem := or2_transfer hor (fun t => t ∈ valueFlags) (by decide) (by decide)
    rw [parseLoop.eq_def, findImage.eq_def]
    simp only [h1, h2, h3, h4, h5, h6, h7, h8, h9, h10, h11, h12, h13, h14, h15,
      h16, h17, hor, hmem, not_not, not_true, not_false_iff, Bool.false_eq_true, and_true, true_and, and_self, and_false, false_and, or_false, false_or, or_self, if_true, if_false,
      ite_true, ite_false, eq_self_iff_true]
    refine ih.trans ?_
    by_cases hk : (parse_env k).1 ≠ "" <;> simp [hk]
  case case26 =>
    rename_i h1 h2 h3 h4 h5 h6 h7 h8 h9 h10 h11 h12 h13 h14 h15 h16 h17 hor
    have hmem := or2_transfer hor (fun t => t ∈ valueFlags) (by decide) (by decide)
    rw [parseLoop.eq_def, findImage.eq_def]
    simp only [h1, h2, h3, h4, h5, h6, h7, h8, h9, h10, h11, h12, h13, h14, h15,
      h16, h17, hor, hmem, not_not, not_true, not_false_iff, Bool.false_eq_true, and_true, true_and, and_self, and_false, false_and, or_false, false_or, or_self, if_true, if_false,
      ite_true, ite_false, eq_self_iff_true, Option.getD_none]
  case case27 =>
    rename_i tok rest r h1 h2 h3 h4 h5 h6 h7 h8 h9 h10 h11 h12 h13 h14 h15 h16 h17 h18 h0 ih
    have hnm := or_not_mem_valueFlags h0 (by decide) (by decide)
    rw [parseLoop.eq_def, findImage.eq_def]
    simp only [h1, h2, h3, h4, h5, h6, h7, h8, h9, h10, h11, h12, h13, h14, h15,
      h16, h17, h18, h0, hnm, not_not, not_true, not_false_iff, Bool.false_eq_true, and_true, true_and, and_self, and_false, false_and, or_false, false_or, or_self, if_true,
      if_false, ite_true, ite_false, eq_self_iff_true, Option.getD_none]
    refine ih.trans ?_
    by_cases hk : (parse_env (eqTail tok)).1 ≠ "" <;> simp [hk]
  case case28 =>
    rename_i h1 h2 h3 h4 h5 h6 h7 h8 h9 h10 h11 h12 h13 h14 h15 h16 h17 h18 h19
      hor k rest ih
    have hmem := or2_transfer hor (fun t => t ∈ valueFlags) (by decide) (by decide)
    rw [parseLoop.eq_def, findImage.eq_def]
    simp only [h1, h2, h3, h4, h5, h6, h7, h8, h9, h10, h11, h12, h13, h14, h15,
      h16, h17, h18, h19, hor, hmem, not_not, not_true, not_false_iff, Bool.false_eq_true, and_true, true_and, and_self, and_false, false_and, or_false, false_or, or_self, if_true,
      if_false, ite_true, ite_false, eq_self_iff_true]
    exact ih.trans (by rfl)
  case case29 =>
    rename_i h1 h2 h3 h4 h5 h6 h7 h8 h9 h10 h11 h12 h13 h14 h15 h16 h17 h18 h19
      hor
    have hmem := or2_transfer hor (fun t => t ∈ valueFlags) (by decide) (by decide)
    rw [parseLoop.eq_def, findImage.eq_def]
    simp only [h1, h2, h3, h4, h5, h6, h7, h8, h9, h10, h11, h12, h13, h14, h15,
      h16, h17, h18, h19, hor, hmem, not_not, not_true, not_false_iff, Bool.false_eq_true, and_true, true_and, and_self, and_false, false_and, or_false, false_or, or_self, if_true,
      if_false, ite_true, ite_false, eq_self_iff_true, Option.getD_none]
  case case30 =>
    rename_i h1 h2 h3 h4 h5 h6 h7 h8 h9 h10 h11 h12 h13 h14 h15 h16 h17 h18 h19
      h20 h0 ih
    have hnm := or_not_mem_valueFlags h0 (by decide) (by decide)
    rw [parseLoop.eq_def, findImage.eq_def]
    simp only [h1, h2, h3, h4, h5, h6, h7, h8, h9, h10, h11, h12, h13, h14, h15,
      h16, h17, h18, h19, h20, h0, hnm, not_not, not_true, not_false_iff, Bool.false_eq_true, and_true, true_and, and_self, and_false, false_and, or_false, false_or, or_self,
      if_true, if_false, ite_true, ite_false, eq_self_iff_true, Option.getD_none]
    exact ih.trans (by rfl)
  case case31 =>
    rename_i h1 h2 h3 h4 h5 h6 h7 h8 h9 h10 h11 h12 h13 h14 h15 h16 h17 h18 h19
      h20 h21 ih
    have hmem : ("--cpus" : String) ∈ valueFlags := by decide
    rw [parseLoop.eq_def, findImage.eq_def]
    simp only [h1, h2, h3, h4, h5, h6, h7, h8, h9, h10, h11, h12, h13, h14, h15,
      h16, h17, h18, h19, h20, h21, hmem, not_not, not_true, not_false_iff, Bool.false_eq_true, and_true, true_and, and_self, and_false, false_and, or_false, false_or, or_self,
      if_true, if_false, ite_true, ite_false, eq_self_iff_true]
    exact ih.trans (by rfl)
  case case32 =>
    rename_i h1 h2 h3 h4 h5 h6 h7 h8 h9 h10 h11 h12 h13 h14 h15 h16 h17 h18 h19
      h20 h21
    have hmem : ("--cpus" : String) ∈ valueFlags := by decide
    rw [parseLoop.eq_def, findImage.eq_def]
    simp only [h1, h2, h3, h4, h5, h6, h7, h8, h9, h10, h11, h12, h13, h14, h15,
      h16, h17, h18, h19, h20, h21, hmem, not_not, not_true, not_false_iff, Bool.false_eq_true, and_true, true_and, and_self, and_false, false_and, or_false, false_or, or_self,
      if_true, if_false, ite_true, ite_false, eq_self_iff_true, Option.getD_none]
  case case33 =>
    rename_i h1 h2 h3 h4 h5 h6 h7 h8 h9 h10 h11 h12 h13 h14 h15 h16 h17 h18 h19
      h20 h21 h22 h0 ih
    have hnm := not_mem_valueFlags_of_prefix "--cpus=" h0 (by decide)
    rw [parseLoop.eq_def, findImage.eq_def]
    simp only [h1, h2, h3, h4, h5, h6, h7, h8, h9, h10, h11, h12, h13, h14, h15,
      h16, h17, h18, h19, h20, h21, h22, h0, hnm, not_not, not_true,
      not_false_iff, Bool.false_eq_true, and_true, true_and, and_self, and_false, false_and, or_false, false_or, or_self, if_true, if_false, ite_true, ite_false, eq_self_iff_true,
      Option.getD_none]
    exact ih.trans (by rfl)
  case case34 =>
    rename_i h1 h2 h3 h4 h5 h6 h7 h8 h9 h10 h11 h12 h13 h14 h15 h16 h17 h18 h19
      h20 h21 h22 h23 ih
    have hnm := unknown_not_valueFlag h6 h8 h10 h12 h14 h16 h18 h20 h22
    rw [parseLoop.eq_def, findImage.eq_def]
    simp only [h1, h2, h3, h4, h5, h6, h7, h8, h9, h10, h11, h12, h13, h14, h15,
      h16, h17, h18, h19, h20, h21, h22, h23, hnm, not_not, not_true,
      not_false_iff, Bool.false_eq_true, and_true, true_and, and_self, and_false, false_and, or_false, false_or, or_self, if_true, if_false, ite_true, ite_false, eq_self_iff_true,
      Option.getD_none]
    exact ih

/-! ### Stats-name alignment invariant (for C10) -/


/-- C10 invariant, checked on a whole manager state: every stats record
is keyed by its own name, every cached info is keyed by its own name,
and every cached info's name has a stats record (so the shared record
Python's `info.stats` aliases exists and carries `info.name`). -/
def stats_aligned (s : ManagerState) : Bool :=
  s.config.statsMap.all (fun p => p.2.name == p.1) &&
  s.containerInfo.all (fun p => p.2.name == p.1) &&
  s.containerInfo.all (fun p => (lookupA s.config.statsMap p.2.name).isSome)

def smOK (m : List (String × ContainerStats)) : Bool :=
  m.all (fun p => p.2.name == p.1)

theorem stats_aligned_iff {s : ManagerState} : stats_aligned s = true ↔
    (∀ p ∈ s.config.statsMap, p.2.name = p.1) ∧
    (∀ p ∈ s.containerInfo, p.2.name = p.1) ∧
    (∀ p ∈ s.containerInfo,
      (lookupA s.config.statsMap p.2.name).isSome = true) := by
  simp [stats_aligned, List.all_eq_true, and_assoc]

theorem smOK_iff {m : List (String × ContainerStats)} :
    smOK m = true ↔ ∀ p ∈ m, p.2.name = p.1 := by
  simp [smOK, List.all_eq_true]

theorem smOK_of_aligned {s : ManagerState} (h : stats_aligned s = true) :
    smOK s.config.statsMap = true :=
  smOK_iff.mpr (stats_aligned_iff.mp h).1

theorem lookupA_mem {α : Type} {m : List (String × α)} {k : String} {v : α}
    (h : lookupA m k = some v) : (k, v) ∈ m := by
  induction m with
  | nil => cases h
  | cons p rest ih =>
    obtain ⟨pk, pv⟩ := p
    by_cases hk : pk = k
    · subst hk
      have hv : pv = v := by simpa [lookupA] using h
      subst hv
      exact List.mem_cons_self _ _
    · simp only [lookupA, if_neg hk] at h
      exact List.mem_cons_of_mem _ (ih h)

theorem lookupA_eraseA {α : Type} (m : List (String × α)) (k k' : String) :
    lookupA (eraseA m k) k' = if k' = k then none else lookupA m k' := by
  induction m with
  | nil => by_cases h : k' = k <;> simp [eraseA, lookupA, h]
  | cons p rest ih =>
    obtain ⟨pk, pv⟩ := p
    by_cases h1 : pk = k
    · subst h1
      by_cases h2 : pk = k'
      · subst h2
        simpa [eraseA, lookupA] using ih
      · simpa [eraseA, lookupA, h2] using ih
    · by_cases h2 : pk = k'
      · subst h2
        have hne : ¬ pk = k := h1
        simp [eraseA, lookupA, hne]
      · simpa [eraseA, lookupA, h1, h2] using ih

theorem smOK_lookup {m : List (String × ContainerStats)} {k : String}
    {st : ContainerStats} (h : smOK m = true) (hl : lookupA m k = some st) :
    st.name = k :=
  smOK_iff.mp h (k, st) (lookupA_mem hl)

theorem smOK_insert {m : List (String × ContainerStats)} {k : String}
    {st : ContainerStats} (h : smOK m = true) (hst : st.name = k) :
    smOK (insertA m k st) = true := by
  rw [smOK_iff] at h ⊢
  intro p hp
  rcases mem_insertA hp with rfl | hp
  · exact hst
  · exact h p hp

theorem smOK_erase {m : List (String × ContainerStats)} {k : String}
    (h : smOK m = true) : smOK (eraseA m k) = true := by
  rw [smOK_iff] at h ⊢
  intro p hp
  exact h p (mem_eraseA hp)

theorem get_stats_spec {c : ConfigManagerState} {n : String}
    (h : smOK c.statsMap = true) :
    smOK (get_stats c n).2.statsMap = true ∧
    lookupA (get_stats c n).2.statsMap n = some (get_stats c n).1 ∧
    (get_stats c n).1.name = n ∧
    (∀ k, (lookupA c.statsMap k).isSome = true →
      (lookupA (get_stats c n).2.statsMap k).isSome = true) ∧
    (get_stats c n).2.containers = c.containers := by
  unfold get_stats
  cases hl : lookupA c.statsMap n with
  | some st =>
    exact ⟨h, hl, smOK_lookup h hl, fun k hk => hk, rfl⟩
  | none =>
    refine ⟨smOK_insert h rfl, ?_, rfl, ?_, rfl⟩
    · rw [lookupA_insertA]
      simp
    · intro k hk
      exact lookupA_isSome_insertA hk

theorem add_container_spec {c : ConfigManagerState} {cfg : ContainerConfig}
    (h : smOK c.statsMap = true) :
    smOK (add_container c cfg).statsMap = true ∧
    (∀ k, (lookupA c.statsMap k).isSome = true →
      (lookupA (add_container c cfg).statsMap k).isSome = true) ∧
    (lookupA (add_container c cfg).statsMap cfg.name).isSome = true := by
  unfold add_container save_containers
  dsimp only
  by_cases hl : (lookupA c.statsMap cfg.name).isNone
  · rw [if_pos hl]
    dsimp only
    refine ⟨smOK_insert h rfl, fun k hk => lookupA_isSome_insertA hk, ?_⟩
    rw [lookupA_insertA]
    simp
  · rw [if_neg hl]
    dsimp only
    refine ⟨h, fun k hk => hk, ?_⟩
    simpa [Option.isNone_iff_eq_none, Option.isSome_iff_ne_none] using hl

theorem increment_requests_spec {now : Nat} {n : String}
    {c : ConfigManagerState} (h : smOK c.statsMap = true) :
    smOK (increment_requests now n c).statsMap = true ∧
    (∀ k, (lookupA c.statsMap k).isSome = true →
      (lookupA (increment_requests now n c).statsMap k).isSome = true) := by
  obtain ⟨hsm, hlook, hname, hmono, _⟩ := @get_stats_spec c n h
  unfold increment_requests save_stats
  dsimp only
  constructor
  · by_cases hc : ({ (get_stats c n).1 with
        total_requests := (get_stats c n).1.total_requests + 1,
        last_access_time := some now } : ContainerStats).total_requests % 100 = 0
    · rw [if_pos hc]
      exact smOK_insert hsm hname
    · rw [if_neg hc]
      exact smOK_insert hsm hname
  · intro k hk
    by_cases hc : ({ (get_stats c n).1 with
        total_requests := (get_stats c n).1.total_requests + 1,
        last_access_time := some now } : ContainerStats).total_requests % 100 = 0
    · rw [if_pos hc]
      exact lookupA_isSome_insertA (hmono k hk)
    · rw [if_neg hc]
      exact lookupA_isSome_insertA (hmono k hk)

theorem mk_container_info_spec {s : ManagerState} {info : ContainerInfo}
    (h : smOK s.config.statsMap = true) :
    (mk_container_info s info).2 = info ∧
    (mk_container_info s info).1.containerInfo = s.containerInfo ∧
    smOK (mk_container_info s info).1.config.statsMap = true ∧
    (lookupA (mk_container_info s info).1.config.statsMap info.name).isSome
      = true ∧
    (∀ k, (lookupA s.config.statsMap k).isSome = true →
      (lookupA (mk_container_info s info).1.config.statsMap k).isSome = true) := by
  obtain ⟨hsm, hlook, hname, hmono, _⟩ :=
    @get_stats_spec s.config info.name h
  unfold mk_container_info
  dsimp only
  rw [if_neg (by simp [hname])]
  exact ⟨rfl, rfl, hsm, by rw [hlook]; rfl, hmono⟩

theorem set_stats_times_spec {s : ManagerState} {name : String} {now : Nat}
    (h : smOK s.config.statsMap = true) :
    (set_stats_times s name now).containerInfo = s.containerInfo ∧
    smOK (set_stats_times s name now).config.statsMap = true ∧
    (∀ k, (lookupA s.config.statsMap k).isSome = true →
      (lookupA (set_stats_times s name now).config.statsMap k).isSome
        = true) := by
  unfold set_stats_times
  cases hl : lookupA s.config.statsMap name with
  | some st =>
    have hb : st.name = name := smOK_lookup h hl
    refine ⟨rfl, ?_, fun k hk => lookupA_isSome_insertA hk⟩
    exact smOK_insert h hb
  | none =>
    exact ⟨rfl, h, fun k hk => hk⟩

theorem set_started_spec {s : ManagerState} {name : String} {now : Nat}
    (h : smOK s.config.statsMap = true) :
    (set_started s name now).containerInfo = s.containerInfo ∧
    smOK (set_started s name now).config.statsMap = true ∧
    (∀ k, (lookupA s.config.statsMap k).isSome = true →
      (lookupA (set_started s name now).config.statsMap k).isSome = true) := by
  unfold set_started
  cases hl : lookupA s.config.statsMap name with
  | some st =>
    have hb : st.name = name := smOK_lookup h hl
    refine ⟨rfl, ?_, fun k hk => lookupA_isSome_insertA hk⟩
    exact smOK_insert h hb
  | none =>
    exact ⟨rfl, h, fun k hk => hk⟩

theorem aligned_config_update {s : ManagerState} {c2 : ConfigManagerState}
    (h : stats_aligned s = true) (hsm : smOK c2.statsMap = true)
    (hmono : ∀ k, (lookupA s.config.statsMap k).isSome = true →
      (lookupA c2.statsMap k).isSome = true) :
    stats_aligned { s with config := c2 } = true := by
  rw [stats_aligned_iff] at h ⊢
  exact ⟨smOK_iff.mp hsm, h.2.1, fun p hp => hmono _ (h.2.2 p hp)⟩

theorem aligned_insert_info {s : ManagerState} {name : String}
    {info : ContainerInfo} (h : stats_aligned s = true)
    (hn : info.name = name)
    (hst : (lookupA s.config.statsMap info.name).isSome = true) :
    stats_aligned
      { s with containerInfo := insertA s.containerInfo name info } = true := by
  rw [stats_aligned_iff] at h ⊢
  refine ⟨h.1, ?_, ?_⟩
  · intro p hp
    rcases mem_insertA hp with rfl | hp
    · exact hn
    · exact h.2.1 p hp
  · intro p hp
    rcases mem_insertA hp with rfl | hp
    · exact hst
    · exact h.2.2 p hp

theorem aligned_after_mk_insert {s1 : ManagerState} {name : String}
    {info : ContainerInfo} (h : stats_aligned s1 = true)
    (hn : info.name = name) :
    stats_aligned
      { (mk_container_info s1 info).1 with
        containerInfo :=
          (insertA (mk_container_info s1 info).1.containerInfo name
            (mk_container_info s1 info).2) } = true := by
  obtain ⟨h2, hci, hsm, hsome, hmono⟩ :=
    @mk_container_info_spec s1 info (smOK_of_aligned h)
  have h1 : stats_aligned (mk_container_info s1 info).1 = true := by
    rw [stats_aligned_iff] at h ⊢
    rw [hci]
    exact ⟨smOK_iff.mp hsm, h.2.1, fun p hp => hmono _ (h.2.2 p hp)⟩
  exact aligned_insert_info h1 (by rw [h2, hn]) (by rw [h2]; exact hsome)

theorem aligned_of_parts {s : ManagerState} {s2 : ManagerState}
    (h : stats_aligned s = true)
    (hci : s2.containerInfo = s.containerInfo)
    (hsm : smOK s2.config.statsMap = true)
    (hmono : ∀ k, (lookupA s.config.statsMap k).isSome = true →
      (lookupA s2.config.statsMap k).isSome = true) :
    stats_aligned s2 = true := by
  rw [stats_aligned_iff] at h ⊢
  rw [hci]
  exact ⟨smOK_iff.mp hsm, h.2.1, fun p hp => hmono _ (h.2.2 p hp)⟩

theorem import_tail_aligned {s : ManagerState} {cfg2 : ContainerConfig}
    {info : ContainerInfo} {name : String}
    (h : stats_aligned s = true) (hn : info.name = name) :
    stats_aligned
      (let s2 : ManagerState := { s with config := add_container s.config cfg2 }
       let si := mk_container_info s2 info
       { si.1 with containerInfo := insertA si.1.containerInfo name si.2 })
      = true := by
  have hs2 : stats_aligned { s with config := add_container s.config cfg2 }
      = true :=
    aligned_of_parts h rfl (add_container_spec (smOK_of_aligned h)).1
      (add_container_spec (smOK_of_aligned h)).2.1
  exact aligned_after_mk_insert hs2 hn

theorem create_tail_aligned {s : ManagerState} {cfg2 : ContainerConfig}
    {info : ContainerInfo} {name : String} {now : Nat}
    (h : stats_aligned s = true) (hn : info.name = name) :
    stats_aligned
      (let s2 : ManagerState := { s with config := add_container s.config cfg2 }
       let si := mk_container_info s2 info
       let s3 := set_stats_times si.1 name now
       { s3 with containerInfo := insertA s3.containerInfo name si.2 })
      = true := by
  have hs2 : stats_aligned { s with config := add_container s.config cfg2 }
      = true :=
    aligned_of_parts h rfl (add_container_spec (smOK_of_aligned h)).1
      (add_container_spec (smOK_of_aligned h)).2.1
  obtain ⟨h2, hci, hsm, hsome, hmono⟩ :=
    @mk_container_info_spec { s with config := add_container s.config cfg2 }
      info (smOK_of_aligned hs2)
  have hmk := aligned_of_parts hs2 hci hsm hmono
  obtain ⟨hci3, hsm3, hmono3⟩ :=
    @set_stats_times_spec
      (mk_container_info { s with config := add_container s.config cfg2 }
        info).1 name now (smOK_of_aligned hmk)
  have hs3 := aligned_of_parts hmk hci3 hsm3 hmono3
  dsimp only
  exact aligned_insert_info hs3 hn (hmono3 _ hsome)

theorem import_existing_aligned {s : ManagerState} {name : String}
    {config : ContainerConfig} {container : EngineContainer}
    (h : stats_aligned s = true) :
    stats_aligned (import_existing_container s name config container).1
      = true := by
  unfold import_existing_container
  dsimp only
  exact import_tail_aligned h rfl

theorem create_fresh_aligned {o : EngineOracle} {now : Nat}
    {config : ContainerConfig} {s : ManagerState}
    (h : stats_aligned s = true) :
    stats_aligned (create_fresh o now config s).1 = true := by
  unfold create_fresh
  dsimp only
  split
  · exact h
  · split
    · exact h
    · split
      · exact h
      · dsimp only
        exact create_tail_aligned h rfl

theorem create_container_aligned {o : EngineOracle} {now : Nat}
    {config : ContainerConfig} {imp : Bool} {s : ManagerState}
    (h : stats_aligned s = true) :
    stats_aligned (create_container o now config imp s).1 = true := by
  unfold create_container
  dsimp only
  split
  · exact h
  · split
    · split
      · dsimp only
        exact import_existing_aligned h
      · exact h
    · exact create_fresh_aligned h

theorem sync_one_aligned {engine : List (String × EngineContainer)}
    {s : ManagerState} {name : String} {config0 : ContainerConfig}
    (h : stats_aligned s = true) :
    stats_aligned (sync_one engine s name config0) = true := by
  unfold sync_one
  dsimp only
  refine aligned_after_mk_insert ?_ rfl
  split
  · split
    · split
      · split
        · dsimp only
          exact aligned_of_parts h rfl
            (add_container_spec (smOK_of_aligned h)).1
            (add_container_spec (smOK_of_aligned h)).2.1
        · exact h
      · exact h
    · exact h
  · exact h

theorem foldl_aligned {α : Type} {f : ManagerState → α → ManagerState}
    (hf : ∀ b a, stats_aligned b = true → stats_aligned (f b a) = true) :
    ∀ (l : List α) (b : ManagerState), stats_aligned b = true →
      stats_aligned (l.foldl f b) = true := by
  intro l
  induction l with
  | nil => intro b hb; exact hb
  | cons x xs ih => intro b hb; exact ih _ (hf b x hb)

theorem sync_containers_aligned {engine : List (String × EngineContainer)}
    {s : ManagerState} (h : stats_aligned s = true) :
    stats_aligned (sync_containers engine s) = true :=
  foldl_aligned (fun b a hb => sync_one_aligned hb) _ _ h

theorem health_update_aligned {engine : List (String × EngineContainer)}
    {s : ManagerState} (h : stats_aligned s = true) :
    stats_aligned (health_update engine s) = true := by
  unfold health_update
  refine foldl_aligned ?_ _ _ h
  intro b a hb
  dsimp only
  cases hle : lookupA engine a with
  | none => exact hb
  | some c =>
    cases hli : lookupA b.containerInfo a with
    | none => exact hb
    | some info =>
      have hmem := lookupA_mem hli
      have hname : info.name = a := (stats_aligned_iff.mp hb).2.1 (a, info) hmem
      have hst : (lookupA b.config.statsMap info.name).isSome = true :=
        (stats_aligned_iff.mp hb).2.2 (a, info) hmem
      exact aligned_insert_info hb hname hst

theorem stop_container_aligned {name : String} {s : ManagerState}
    (h : stats_aligned s = true) :
    stats_aligned (stop_container name s).1 = true := by
  unfold stop_container
  cases hli : lookupA s.containerInfo name with
  | none => exact h
  | some info =>
    have hmem := lookupA_mem hli
    have hname : info.name = name := (stats_aligned_iff.mp h).2.1 (name, info) hmem
    have hst : (lookupA s.config.statsMap info.name).isSome = true :=
      (stats_aligned_iff.mp h).2.2 (name, info) hmem
    exact aligned_insert_info h hname hst

theorem start_container_aligned {o : EngineOracle} {now : Nat} {name : String}
    {s : ManagerState} (h : stats_aligned s = true) :
    stats_aligned (start_container o now name s).1 = true := by
  unfold start_container
  cases hbn : lookupA o.byName name with
  | none =>
    cases hcf : lookupA s.config.containers name with
    | none => exact h
    | some config =>
      dsimp only
      split
      · exact create_container_aligned h
      · exact create_container_aligned h
  | some c =>
    cases hli : lookupA s.containerInfo name with
    | none => exact h
    | some info =>
      dsimp only
      have hmem := lookupA_mem hli
      have hname : info.name = name := (stats_aligned_iff.mp h).2.1 (name, info) hmem
      have hst : (lookupA s.config.statsMap info.name).isSome = true :=
        (stats_aligned_iff.mp h).2.2 (name, info) hmem
      have hs2 : stats_aligned
          { s with containerInfo :=
              (insertA s.containerInfo name { info with status := "running" }) }
          = true :=
        aligned_insert_info h hname hst
      obtain ⟨hci2, hsm2, hmono2⟩ :=
        @set_started_spec
          { s with containerInfo :=
              (insertA s.containerInfo name { info with status := "running" }) }
          info.name now (smOK_of_aligned hs2)
      exact aligned_of_parts hs2 hci2 hsm2 hmono2

theorem restart_container_aligned {engine : List (String × EngineContainer)}
    {now : Nat} {name : String} {s : ManagerState}
    (h : stats_aligned s = true) :
    stats_aligned (restart_container engine now name s).1 = true := by
  unfold restart_container
  cases hle : lookupA engine name with
  | none => exact h
  | some c =>
    cases hli : lookupA s.containerInfo name with
    | none => exact h
    | some info =>
      dsimp only
      have hmem := lookupA_mem hli
      have hname : info.name = name := (stats_aligned_iff.mp h).2.1 (name, info) hmem
      have hst : (lookupA s.config.statsMap info.name).isSome = true :=
        (stats_aligned_iff.mp h).2.2 (name, info) hmem
      have hs2 : stats_aligned
          { s with containerInfo :=
              (insertA s.containerInfo name { info with status := "running" }) }
          = true :=
        aligned_insert_info h hname hst
      obtain ⟨hci2, hsm2, hmono2⟩ :=
        @set_started_spec
          { s with containerInfo :=
              (insertA s.containerInfo name { info with status := "running" }) }
          info.name now (smOK_of_aligned hs2)
      exact aligned_of_parts hs2 hci2 hsm2 hmono2

theorem mem_eraseA_ne {α : Type} {l : List (String × α)} {k : String}
    {p : String × α} (hp : p ∈ eraseA l k) : p.1 ≠ k := by
  have := (List.mem_filter.mp hp).2
  simpa using this

theorem config_remove_spec {c : ConfigManagerState} {name : String}
    (h : smOK c.statsMap = true) :
    smOK (config_remove_container c name).1.statsMap = true ∧
    (∀ k, k ≠ name → (lookupA c.statsMap k).isSome = true →
      (lookupA (config_remove_container c name).1.statsMap k).isSome
        = true) := by
  unfold config_remove_container save_stats save_containers
  dsimp only
  by_cases h1 : (lookupA c.containers name).isSome
  · rw [if_pos h1]
    by_cases h2 : (lookupA c.statsMap name).isSome
    · rw [if_pos h2]
      dsimp only
      refine ⟨smOK_erase h, ?_⟩
      intro k hk hks
      rw [lookupA_eraseA, if_neg hk]
      exact hks
    · rw [if_neg h2]
      dsimp only
      exact ⟨h, fun k hk hks => hks⟩
  · rw [if_neg h1]
    exact ⟨h, fun k hk hks => hks⟩

theorem remove_container_aligned {name : String} {s : ManagerState}
    (h : stats_aligned s = true) :
    stats_aligned (remove_container name s).1 = true := by
  unfold remove_container
  dsimp only
  rw [stats_aligned_iff]
  rw [stats_aligned_iff] at h
  refine ⟨?_, ?_, ?_⟩
  · exact smOK_iff.mp (config_remove_spec (smOK_iff.mpr h.1)).1
  · intro p hp
    exact h.2.1 p (mem_eraseA hp)
  · intro p hp
    have hpm := mem_eraseA hp
    have hne : p.1 ≠ name := mem_eraseA_ne hp
    have hname : p.2.name = p.1 := h.2.1 p hpm
    refine (config_remove_spec (smOK_iff.mpr h.1)).2 p.2.name ?_ (h.2.2 p hpm)
    rw [hname]
    exact hne

theorem record_request_aligned {now : Nat} {name : String} {s : ManagerState}
    (h : stats_aligned s = true) :
    stats_aligned (record_request now name s) = true := by
  unfold record_request
  dsimp only
  have hinc : stats_aligned
      { s with config := increment_requests now name s.config } = true :=
    aligned_of_parts h rfl (increment_requests_spec (smOK_of_aligned h)).1
      (increment_requests_spec (smOK_of_aligned h)).2
  cases hli : lookupA s.containerInfo name with
  | none => exact hinc
  | some info =>
    dsimp only
    cases hls : lookupA (increment_requests now name s.config).statsMap
        info.name with
    | none => exact hinc
    | some st =>
      have hstn : st.name = info.name :=
        smOK_lookup (increment_requests_spec (smOK_of_aligned h)).1 hls
      refine aligned_of_parts hinc rfl ?_ ?_
      · exact smOK_insert (increment_requests_spec (smOK_of_aligned h)).1 hstn
      · intro k hk
        exact lookupA_isSome_insertA hk

/-! ### Claim theorems -/

/-- C1: `resolveEndpoint` (`get_container_internal_url`) returns `none`
iff no DesiredConfig exists for the name (neither the cached info nor
the config store knows it); otherwise the URL follows the preference
order: (2) a truthy live host-port binding for the configured internal
port gives `http://127.0.0.1:{port}` regardless of the config's own
`host_port`; else (3) the gateway network's IP; else (4) the first
other network IP; else (5) the cached truthy `internal_url`; else
(6) the default guess `http://127.0.0.1:{internalPort}`. -/
theorem C1_resolve_endpoint_spec :
    (∀ engine (s : ManagerState) name,
      get_container_internal_url engine s name = none ↔
        (lookupA s.containerInfo name = none ∧
          lookupA s.config.containers name = none))
    ∧ (∀ engine (s : ManagerState) name container config b bs hp,
        config_of s name = some config →
        lookupA engine name = some container →
        lookupA container.ports (intToStr config.internal_port ++ "/tcp") =
          some (some (b :: bs)) →
        b.hostPort = some hp → hp ≠ "" →
        get_container_internal_url engine s name =
          some ("http://127.0.0.1:" ++ hp))
    ∧ (∀ engine (s : ManagerState) name container config ep ip,
        config_of s name = some config →
        lookupA engine name = some container →
        url_from_port_binding container config = none →
        lookupA container.networks NETWORK_NAME = some ep →
        ep.ipAddress = some ip → ip ≠ "" →
        get_container_internal_url engine s name =
          some ("http://" ++ ip ++ ":" ++ intToStr config.internal_port))
    ∧ (∀ engine (s : ManagerState) name container config u,
        config_of s name = some config →
        lookupA engine name = some container →
        url_from_port_binding container config = none →
        url_from_gateway_network container config = none →
        url_from_any_network container.networks config.internal_port = some u →
        get_container_internal_url engine s name = some u)
    ∧ (∀ engine (s : ManagerState) name info iu,
        lookupA s.containerInfo name = some info →
        (match lookupA engine name with
         | some c => url_from_engine c info.config = none
         | none => True) →
        info.internal_url = some iu → iu ≠ "" →
        get_container_internal_url engine s name = some iu)
    ∧ (∀ engine (s : ManagerState) name config,
        config_of s name = some config →
        (match lookupA engine name with
         | some c => url_from_engine c config = none
         | none => True) →
        (match lookupA s.containerInfo name with
         | some info => info.internal_url = none ∨ info.internal_url = some ""
         | none => True) →
        get_container_internal_url engine s name =
          some ("http://127.0.0.1:" ++ intToStr config.internal_port)) := by
  have hnonecfg : ∀ (s : ManagerState) name, config_of s name = none ↔
      (lookupA s.containerInfo name = none ∧
        lookupA s.config.containers name = none) := by
    intro s name
    simp only [config_of]
    cases hinfo : lookupA s.containerInfo name <;>
      cases hcfg : lookupA s.config.containers name <;> simp
  have hsome : ∀ engine (s : ManagerState) name config,
      config_of s name = some config →
      get_container_internal_url engine s name ≠ none := by
    intro engine s name config hc
    simp only [get_container_internal_url, hc]
    split <;> simp
  refine ⟨?_, ?_, ?_, ?_, ?_, ?_⟩
  · intro engine s name
    constructor
    · intro h
      cases hc : config_of s name with
      | some config => exact absurd h (hsome engine s name config hc)
      | none => exact (hnonecfg s name).mp hc
    · rintro ⟨h1, h2⟩
      have hc : config_of s name = none := (hnonecfg s name).mpr ⟨h1, h2⟩
      simp [get_container_internal_url, hc]
  · intro engine s name container config b bs hp h1 h2 h3 h4 h5
    have hurl : url_from_port_binding container config =
        some ("http://127.0.0.1:" ++ hp) := by
      simp [url_from_port_binding, h3, h4, h5]
    simp [get_container_internal_url, h1, h2, url_from_engine, hurl]
  · intro engine s name container config ep ip h1 h2 h3 h4 h5 h6
    have hurl : url_from_gateway_network container config =
        some ("http://" ++ ip ++ ":" ++ intToStr config.internal_port) := by
      simp [url_from_gateway_network, h4, h5, h6]
    simp [get_container_internal_url, h1, h2, url_from_engine, h3, hurl]
  · intro engine s name container config u h1 h2 h3 h4 h5
    simp [get_container_internal_url, h1, h2, url_from_engine, h3, h4, h5]
  · intro engine s name info iu h1 h2 h3 h4
    have hcfg : config_of s name = some info.config := by
      simp [config_of, h1]
    cases heng : lookupA engine name with
    | some c =>
      rw [heng] at h2
      simp [get_container_internal_url, hcfg, heng, h2, cached_or_default,
        h1, h3, h4]
    | none =>
      simp [get_container_internal_url, hcfg, heng, cached_or_default,
        h1, h3, h4]
  · intro engine s name config h1 h2 h3
    have hcache : cached_or_default (lookupA s.containerInfo name) config =
        "http://127.0.0.1:" ++ intToStr config.internal_port := by
      cases hinfo : lookupA s.containerInfo name with
      | some info =>
        rw [hinfo] at h3
        rcases h3 with h3 | h3 <;> simp [cached_or_default, h3]
      | none => simp [cached_or_default]
    cases heng : lookupA engine name with
    | some c =>
      rw [heng] at h2
      simp [get_container_internal_url, h1, heng, h2, hcache]
    | none =>
      simp [get_container_internal_url, h1, heng, hcache]

/-- Concrete inputs for the C1 witness, one per branch of the
preference order. -/
def c1cfg : ContainerConfig :=
  { name := "svc", image := "i", internal_port := 80, host_port := some 9999 }

def c1bind : PortBinding := { hostPort := some "18100" }

def c1contPort : EngineContainer :=
  { ports := [("80/tcp", some [c1bind])] }

def c1epGw : NetworkEndpoint := { ipAddress := some "10.0.0.5" }

def c1contGw : EngineContainer :=
  { networks := [("mcp-gateway-network", c1epGw)] }

def c1contAny : EngineContainer :=
  { networks := [("bridge", { ipAddress := some "10.1.1.1" })] }

def c1infoPlain : ContainerInfo := { name := "svc", config := c1cfg }

def c1infoCached : ContainerInfo :=
  { name := "svc", config := c1cfg,
    internal_url := some "http://localhost:18100" }

def c1stPlain : ManagerState := { containerInfo := [("svc", c1infoPlain)] }

def c1stCached : ManagerState := { containerInfo := [("svc", c1infoCached)] }

def c1stStore : ManagerState :=
  { config := { containers := [("svc", c1cfg)] } }

/-- Witness for C1: one concrete instantiation per branch of the
preference order (unknown name; live binding 18100 even though the
config asked for 9999; gateway-network IP; other-network IP; cached
URL; default guess). -/
theorem C1_resolve_endpoint_spec_witness :
    get_container_internal_url [] {} "x" = none
    ∧ get_container_internal_url [("svc", c1contPort)] c1stPlain "svc" =
        some "http://127.0.0.1:18100"
    ∧ get_container_internal_url [("svc", c1contGw)] c1stPlain "svc" =
        some "http://10.0.0.5:80"
    ∧ get_container_internal_url [("svc", c1contAny)] c1stPlain "svc" =
        some "http://10.1.1.1:80"
    ∧ get_container_internal_url [] c1stCached "svc" =
        some "http://localhost:18100"
    ∧ get_container_internal_url [] c1stStore "svc" =
        some "http://127.0.0.1:80" := by
  refine ⟨?_, ?_, ?_, ?_, ?_, ?_⟩
  · exact (C1_resolve_endpoint_spec.1 [] {} "x").mpr ⟨rfl, rfl⟩
  · exact C1_resolve_endpoint_spec.2.1 [("svc", c1contPort)] c1stPlain "svc"
      c1contPort c1cfg c1bind [] "18100"
      (by decide) (by decide) (by decide) (by decide) (by decide)
  · exact C1_resolve_endpoint_spec.2.2.1 [("svc", c1contGw)] c1stPlain "svc"
      c1contGw c1cfg c1epGw "10.0.0.5"
      (by decide) (by decide) (by decide) (by decide) (by decide) (by decide)
  · exact C1_resolve_endpoint_spec.2.2.2.1 [("svc", c1contAny)] c1stPlain
      "svc" c1contAny c1cfg "http://10.1.1.1:80"
      (by decide) (by decide) (by decide) (by decide) (by decide)
  · exact C1_resolve_endpoint_spec.2.2.2.2.1 [] c1stCached "svc" c1infoCached
      "http://localhost:18100" (by decide) (by trivial) (by decide) (by decide)
  · exact C1_resolve_endpoint_spec.2.2.2.2.2 [] c1stStore "svc" c1cfg
      (by decide) (by trivial) (by trivial)

/-- Concrete inputs for the C2 counterexample and witness. -/
def c2eng : EngineContainer :=
  { id := "abc", status := "running", labels := [(GATEWAY_LABEL, "true")] }

def c2oracle : EngineOracle := { byName := [("svc", c2eng)] }

def c2cfg : ContainerConfig := { name := "svc", image := "img" }

def c2state : ManagerState :=
  { config := { containers := [("svc", c2cfg)] } }

/-- Counterexample to C2 as stated: the engine holds a container named
`svc` that *is* tagged gateway-managed and no DesiredConfig exists, so
the claim's condition ("name already has a DesiredConfig and
importExisting is false, or the engine has an entity with that name not
tagged as gateway-managed") is false — yet `create_container` with
`importExisting = false` raises the name-conflict `ValueError`
`容器 'svc' 已存在`. -/
theorem C2_counterexample :
    lookupA ({} : ManagerState).config.containers "svc" = none
    ∧ lookupA c2oracle.byName "svc" = some c2eng
    ∧ lookupA c2eng.labels GATEWAY_LABEL = some "true"
    ∧ (create_container c2oracle 0 c2cfg false {}).2 =
        .error (.valueError ("容器 '" ++ "svc" ++ "' 已存在")) := by
  exact ⟨rfl, rfl, rfl, rfl⟩

/-- C2 (amended): `create_container` raises the name-conflict
`ValueError` exactly when `import_existing` is false and either the
name already has a DesiredConfig or the engine has *any* container with
that name (gateway-managed or not); and whenever it raises that error,
the whole manager state — in particular the tracked ObservedState map —
is left exactly as it was. -/
theorem C2_create_name_conflict :
    ∀ (o : EngineOracle) (now : Nat) (config : ContainerConfig) (imp : Bool)
      (s : ManagerState),
      ((∃ m, (create_container o now config imp s).2 =
          .error (.valueError m)) ↔
        (imp = false ∧ ((lookupA s.config.containers config.name).isSome ∨
          (lookupA o.byName config.name).isSome)))
      ∧ ((∃ m, (create_container o now config imp s).2 =
          .error (.valueError m)) →
          (create_container o now config imp s).1 = s) := by
  intro o now config imp s
  constructor
  · cases himp : imp with
    | true =>
      cases heng : lookupA o.byName config.name with
      | some existing =>
        simp [create_container, heng]
      | none =>
        simp [create_container, heng, create_fresh_no_value_error]
    | false =>
      cases hcs : lookupA s.config.containers config.name with
      | some c0 =>
        have hc : (check_name_conflict o s.config config.name).1 = true := by
          simp [check_name_conflict, hcs]
        simp [create_container, hc, hcs]
      | none =>
        cases heng : lookupA o.byName config.name with
        | some e =>
          by_cases hmanaged : lookupA e.labels GATEWAY_LABEL = some "true"
          · have hc : (check_name_conflict o s.config config.name).1 = false := by
              simp [check_name_conflict, hcs, heng, hmanaged]
            simp [create_container, hc, heng]
          · have hc : (check_name_conflict o s.config config.name).1 = true := by
              simp [check_name_conflict, hcs, heng, hmanaged]
            simp [create_container, hc, heng]
        | none =>
          have hc : (check_name_conflict o s.config config.name).1 = false := by
            simp [check_name_conflict, hcs, heng]
          simp [create_container, hc, hcs, heng, create_fresh_no_value_error]
  · rintro ⟨m, hm⟩
    revert hm
    unfold create_container
    dsimp only
    split
    · intro _
      rfl
    · split
      · split
        · intro h
          exact absurd h (by simp)
        · intro _
          rfl
      · intro h
        exact create_fresh_error_state h

/-- Witness for C2 (amended) at a concrete repeated-create input: the
name `svc` already has a DesiredConfig and `import_existing` is false,
so the theorem yields the raised `ValueError` and the untouched
state. -/
theorem C2_create_name_conflict_witness :
    (∃ m, (create_container c2oracle 0 c2cfg false c2state).2 =
      .error (.valueError m))
    ∧ (create_container c2oracle 0 c2cfg false c2state).1 = c2state := by
  have h := C2_create_name_conflict c2oracle 0 c2cfg false c2state
  have hex := h.1.mpr ⟨rfl, Or.inl (by decide)⟩
  exact ⟨hex, h.2 hex⟩

/-- C4: Whenever `create_container` fails — in particular when the
image pull or the engine run call raises partway through the multi-step
creation — the returned manager state equals the input state: nothing
was written to the config store (`containers`) or its persisted file
(`containersFile`), so no DesiredConfig is persisted by the failed call
and a retry starts from an unchanged store.  Persistence
(`add_container`) is reached only on the success path, after the engine
run has fully succeeded. -/
theorem C4_no_persist_on_partial_failure :
    ∀ (o : EngineOracle) (now : Nat) (config : ContainerConfig) (imp : Bool)
      (s : ManagerState) (e : PyErr),
      (create_container o now config imp s).2 = .error e →
      (create_container o now config imp s).1 = s := by
  intro o now config imp s e
  unfold create_container
  dsimp only
  split
  · intro _
    rfl
  · split
    · split
      · intro h
        exact absurd h (by simp)
      · intro _
        rfl
    · intro h
      exact create_fresh_error_state h

/-- Oracle for the C4 witness: the pull of `img` raises
`ImageNotFound`. -/
def c4oracle : EngineOracle :=
  { bindable := fun _ => true, pullFails := some .imageNotFound }

/-- Witness for C4: a concrete create whose image pull fails maps to
the `RuntimeError` and leaves the (empty) state untouched. -/
theorem C4_no_persist_on_partial_failure_witness :
    (create_container c4oracle 0 c2cfg false {}).2 =
      .error (.runtimeError ("镜像不存在: " ++ "img"))
    ∧ (create_container c4oracle 0 c2cfg false {}).1 = {} := by
  exact ⟨rfl, C4_no_persist_on_partial_failure c4oracle 0 c2cfg false {}
    (.runtimeError ("镜像不存在: " ++ "img")) rfl⟩

/-- C3: For every ledger of used ports (every config store and engine
view, which together produce the ledger) and every bindability oracle:
(1) `allocate` with no preferred port returns exactly the smallest port
of the range `[18100, 18999]` that is absent from the ledger and
bindable; (2) with a truthy preferred port it returns that port exactly
when the port is unclaimed and bindable; (3) otherwise it falls back to
the same forward scan; and (4) it raises `PortRangeExhausted`
(`RuntimeError`) whenever the preferred port is unusable (or absent)
and no port of the range is simultaneously unclaimed and bindable. -/
theorem C3_allocate_port_spec :
    ∀ (bindable : Int → Bool) (cfgs : List (String × ContainerConfig))
      (engineAll : List EngineContainer),
      (∀ q, allocate_port bindable cfgs engineAll none = .ok q ↔
        (q ∈ portRange ∧
          port_ok bindable (get_used_ports cfgs engineAll) q = true ∧
          ∀ r ∈ portRange, r < q →
            port_ok bindable (get_used_ports cfgs engineAll) r = false))
      ∧ (∀ p : Int, p ≠ 0 →
          (allocate_port bindable cfgs engineAll (some p) = .ok p ↔
            port_ok bindable (get_used_ports cfgs engineAll) p = true))
      ∧ (∀ p : Int, p ≠ 0 →
          port_ok bindable (get_used_ports cfgs engineAll) p = false →
          allocate_port bindable cfgs engineAll (some p) =
            allocate_port bindable cfgs engineAll none)
      ∧ ((∀ r ∈ portRange,
            port_ok bindable (get_used_ports cfgs engineAll) r = false) →
          ∀ preferred : Option Int,
            (match preferred with
             | some p => p = 0 ∨
                 port_ok bindable (get_used_ports cfgs engineAll) p = false
             | none => True) →
            allocate_port bindable cfgs engineAll preferred =
              .error "无法分配端口") := by
  intro bindable cfgs engineAll
  have hconf : ∀ p : Int, p ≠ 0 →
      (check_port_conflict bindable cfgs engineAll p = false ↔
        port_ok bindable (get_used_ports cfgs engineAll) p = true) := by
    intro p hp
    simp only [check_port_conflict, port_ok, if_neg hp]
    by_cases hb : bindable p <;>
      by_cases hm : (get_used_ports cfgs engineAll).contains p <;>
      simp [hb, hm]
  have hscan : ∀ q, allocate_port bindable cfgs engineAll none = .ok q ↔
      (q ∈ portRange ∧
        port_ok bindable (get_used_ports cfgs engineAll) q = true ∧
        ∀ r ∈ portRange, r < q →
          port_ok bindable (get_used_ports cfgs engineAll) r = false) := by
    intro q
    simp only [allocate_port]
    cases hf : portRange.find?
        (port_ok bindable (get_used_ports cfgs engineAll)) with
    | some port =>
      have hprop := (@find?_intRange_eq_some _ 18100 _ 900).mp hf
      constructor
      · rintro ⟨rfl⟩
        refine ⟨mem_intRange.mpr ⟨hprop.1, hprop.2.1⟩, hprop.2.2.1, ?_⟩
        intro r hr hrq
        exact hprop.2.2.2 r (mem_intRange.mp hr).1 hrq
      · rintro ⟨hq1, hq2, hq3⟩
        have : port = q := by
          have hq' := (@find?_intRange_eq_some _ 18100 _ 900).mpr
            ⟨(mem_intRange.mp hq1).1, (mem_intRange.mp hq1).2, hq2,
              fun r hr1 hr2 => hq3 r (mem_intRange.mpr ⟨hr1, by
                have := (mem_intRange.mp hq1).2
                omega⟩) hr2⟩
          rw [show intRange 18100 900 = portRange from rfl] at hq'
          rw [hf] at hq'
          exact Option.some_injective _ hq'
        rw [this]
    | none =>
      have hnone := (@find?_intRange_eq_none _ 18100 900).mp hf
      constructor
      · intro h
        exact absurd h (by simp)
      · rintro ⟨hq1, hq2, _⟩
        exact absurd (hnone q hq1) (by simp [hq2])
  refine ⟨hscan, ?_, ?_, ?_⟩
  · intro p hp
    constructor
    · intro h
      by_cases hc : check_port_conflict bindable cfgs engineAll p = false
      · exact (hconf p hp).mp hc
      · have hc' : check_port_conflict bindable cfgs engineAll p = true := by
          revert hc
          cases check_port_conflict bindable cfgs engineAll p <;> simp
        have : allocate_port bindable cfgs engineAll (some p) =
            allocate_port bindable cfgs engineAll none := by
          simp [allocate_port, hp, hc']
        rw [this] at h
        exact ((hscan p).mp h).2.1
    · intro h
      have hc := (hconf p hp).mpr h
      simp [allocate_port, hp, hc]
  · intro p hp hbad
    have hc : check_port_conflict bindable cfgs engineAll p = true := by
      rcases hcc : check_port_conflict bindable cfgs engineAll p with _ | _
      · exact absurd ((hconf p hp).mp hcc) (by simp [hbad])
      · rfl
    simp [allocate_port, hp, hc]
  · intro hall preferred hpref
    have hnone : portRange.find?
        (port_ok bindable (get_used_ports cfgs engineAll)) = none := by
      exact (@find?_intRange_eq_none _ 18100 900).mpr hall
    cases preferred with
    | none => simp [allocate_port, hnone]
    | some p =>
      rcases hpref with rfl | hbad
      · simp [allocate_port, hnone]
      · by_cases hp : p = 0
        · simp [allocate_port, hp, hnone]
        · have hc : check_port_conflict bindable cfgs engineAll p = true := by
            rcases hcc : check_port_conflict bindable cfgs engineAll p with _ | _
            · exact absurd ((hconf p hp).mp hcc) (by simp [hbad])
            · rfl
          simp [allocate_port, hp, hc, hnone]

/-- Witness for C3: with an empty ledger and a fully bindable range the
first call returns 18100 (the claim's concrete case); a bindable,
unclaimed preferred port 20000 is returned as is; a dead preferred port
falls back to the scan; and an unbindable range raises. -/
theorem C3_allocate_port_spec_witness :
    allocate_port (fun _ => true) [] [] none = .ok 18100
    ∧ allocate_port (fun _ => true) [] [] (some 20000) = .ok 20000
    ∧ allocate_port (fun r => r == 18105) [] [] (some 3) =
        allocate_port (fun r => r == 18105) [] [] none
    ∧ allocate_port (fun _ => false) [] [] none = .error "无法分配端口" := by
  refine ⟨?_, ?_, ?_, ?_⟩
  · refine ((C3_allocate_port_spec (fun _ => true) [] []).1 18100).mpr
      ⟨mem_intRange.mpr ⟨by omega, by omega⟩, rfl, ?_⟩
    intro r hr hlt
    exact absurd (mem_intRange.mp hr).1 (by omega)
  · exact ((C3_allocate_port_spec (fun _ => true) [] []).2.1 20000
      (by decide)).mpr rfl
  · exact (C3_allocate_port_spec (fun r => r == 18105) [] []).2.2.1 3
      (by decide) (by decide)
  · exact (C3_allocate_port_spec (fun _ => false) [] []).2.2.2
      (fun r _ => rfl) none trivial

/-- C5 (evidence of the code bug): because `ContainerInfo.stats` is the
very object stored in `ConfigManager._stats[name]`, `record_request`
on a tracked name increments `total_requests` twice — once inside
`increment_requests` and once through `info.stats` — so the counter
grows by 2 per call, not 1; and the `% 100 == 0` flush check runs
between the two increments, so from any even counter value (0 included)
it sees an odd number and never triggers the stats-file write.  The
claim's `+1 per call, flush on each 100th increment` holds only for
names absent from the container-info map. -/
theorem C5_record_request_double_increment :
    ∀ (now : Nat) (name : String) (s : ManagerState)
      (info : ContainerInfo) (st : ContainerStats),
      lookupA s.containerInfo name = some info →
      info.name = name →
      lookupA s.config.statsMap name = some st →
      st.total_requests % 2 = 0 →
      ((∃ st', lookupA (record_request now name s).config.statsMap name =
          some st' ∧ st'.total_requests = st.total_requests + 2)
        ∧ (record_request now name s).config.statsSaves =
            s.config.statsSaves) := by
  intro now name s info st hinfo hname hst heven
  have hodd : ¬ ((st.total_requests + 1) % 100 = 0) := by
    intro h
    have h100 : (100 : Int) ∣ st.total_requests + 1 :=
      Int.dvd_of_emod_eq_zero h
    have h2 : (2 : Int) ∣ st.total_requests + 1 :=
      dvd_trans (by norm_num) h100
    have h2' : (st.total_requests + 1) % 2 = 0 :=
      Int.emod_eq_zero_of_dvd h2
    omega
  have hc1 : increment_requests now name s.config =
      { s.config with statsMap :=
          (insertA s.config.statsMap name
            { st with total_requests := st.total_requests + 1,
                      last_access_time := some now }) } := by
    simp [increment_requests, get_stats, hst, hodd]
  have hlook1 : lookupA (insertA s.config.statsMap name
      { st with total_requests := st.total_requests + 1,
                last_access_time := some now }) name =
      some { st with total_requests := st.total_requests + 1,
                     last_access_time := some now } := by
    rw [lookupA_insertA]
    simp
  subst hname
  have hmain : lookupA (record_request now info.name s).config.statsMap
      info.name =
      some ({ st with total_requests := st.total_requests + 1 + 1,
                      last_access_time := some now }) := by
    simp only [record_request, hc1, hinfo, hlook1]
    rw [lookupA_insertA]
    simp
  have hsaves : (record_request now info.name s).config.statsSaves =
      s.config.statsSaves := by
    simp [record_request, hc1, hinfo, hlook1]
  refine ⟨⟨_, hmain, ?_⟩, hsaves⟩
  show st.total_requests + 1 + 1 = st.total_requests + 2
  omega

/-- Witness inputs for C5: a tracked name with a fresh stats record. -/
def c5cfg : ContainerConfig := { name := "svc", image := "img" }

def c5stats : ContainerStats := { name := "svc" }

def c5state : ManagerState :=
  { config := { statsMap := [("svc", c5stats)] },
    containerInfo := [("svc", { name := "svc", config := c5cfg })] }

/-- Witness for C5: on the concrete tracked state with
`total_requests = 0`, one `record_request` leaves the counter at 2 and
performs no stats flush. -/
theorem C5_record_request_double_increment_witness :
    ((∃ st', lookupA (record_request 7 "svc" c5state).config.statsMap "svc" =
        some st' ∧ st'.total_requests = c5stats.total_requests + 2)
      ∧ (record_request 7 "svc" c5state).config.statsSaves =
          c5state.config.statsSaves) :=
  C5_record_request_double_increment 7 "svc" c5state
    { name := "svc", config := c5cfg } c5stats
    (by decide) (by decide) (by decide) (by decide)

/-- C8: Parsing the command string
`run --name foo -p 8080:80 -e A=1 myimg:tag` succeeds and produces a
DesiredConfig with name `foo`, image `myimg:tag`, hostPort 8080,
internalPort 80, and env mapping `A` to `"1"` (shown here with every
remaining field at its documented default, plus the raw command
retained verbatim). -/
theorem C8_parse_example :
    parse_docker_command "run --name foo -p 8080:80 -e A=1 myimg:tag" =
      Except.ok
        { name := "foo"
          image := "myimg:tag"
          internal_port := 80
          host_port := some 8080
          env := [("A", "1")]
          restart_policy := "always"
          labels := []
          memory_limit := none
          cpu_limit := none
          raw_command := some "run --name foo -p 8080:80 -e A=1 myimg:tag" } := by
  rfl

/-- C6: Forwarding failure is mapped to a structured JSON error
response and never propagated (the embedded `proxy_request` is a total
function): a connection failure yields status 502, an upstream timeout
yields 504, and any other forwarding exception yields 500, each with an
`application/json` body that carries an `error` field (the body
literally begins with `{"error"`). -/
theorem C6_proxy_error_mapping :
    ∀ (req : HttpRequest) (target m : String),
      ((proxy_request req target (.connectError m)).2.status_code = 502
        ∧ (proxy_request req target (.connectError m)).2.media_type =
            some "application/json"
        ∧ ∃ rest, (proxy_request req target (.connectError m)).2.content =
            "\x7b\"error\"" ++ rest)
      ∧ ((proxy_request req target (.timedOut m)).2.status_code = 504
        ∧ (proxy_request req target (.timedOut m)).2.media_type =
            some "application/json"
        ∧ ∃ rest, (proxy_request req target (.timedOut m)).2.content =
            "\x7b\"error\"" ++ rest)
      ∧ ((proxy_request req target (.otherError m)).2.status_code = 500
        ∧ (proxy_request req target (.otherError m)).2.media_type =
            some "application/json"
        ∧ ∃ rest, (proxy_request req target (.otherError m)).2.content =
            "\x7b\"error\"" ++ rest) := by
  intro req target m
  have hassoc : ∀ a b c : String, (a ++ b) ++ c = a ++ (b ++ c) := by
    intro a b c
    apply String.ext
    simp [String.data_append]
  have h502 : ("\x7b\"error\": \"容器连接失败: " : String) =
      "\x7b\"error\"" ++ ": \"容器连接失败: " := by decide
  have h504 : ("\x7b\"error\": \"请求超时\"\x7d" : String) =
      "\x7b\"error\"" ++ ": \"请求超时\"\x7d" := by decide
  have h500 : ("\x7b\"error\": \"代理错误: " : String) =
      "\x7b\"error\"" ++ ": \"代理错误: " := by decide
  refine ⟨⟨rfl, rfl, ⟨": \"容器连接失败: " ++ m ++ "\"\x7d", ?_⟩⟩,
         ⟨rfl, rfl, ⟨": \"请求超时\"\x7d", h504⟩⟩,
         ⟨rfl, rfl, ⟨": \"代理错误: " ++ m ++ "\"\x7d", ?_⟩⟩⟩
  · show ("\x7b\"error\": \"容器连接失败: " ++ (m ++ "\"\x7d") : String) =
      "\x7b\"error\"" ++ (": \"容器连接失败: " ++ (m ++ "\"\x7d"))
    rw [h502, hassoc]
  · show ("\x7b\"error\": \"代理错误: " ++ (m ++ "\"\x7d") : String) =
      "\x7b\"error\"" ++ (": \"代理错误: " ++ (m ++ "\"\x7d"))
    rw [h500, hassoc]

/-- C7: For a non-streaming upstream response, `proxy_request` strips
every hop-by-hop header (and `host`) case-insensitively from the
outgoing request headers, strips the same set plus `content-encoding`
from the returned response headers, and preserves the upstream status
code, body, and every remaining header. -/
theorem C7_header_stripping :
    ∀ (req : HttpRequest) (target : String) (r : UpstreamResponse),
      strContains ((header_get r.headers "content-type").getD "")
          "text/event-stream" = false →
      ((proxy_request req target (.success r)).2.status_code = r.status_code
        ∧ (proxy_request req target (.success r)).2.content = r.content
        ∧ (proxy_request req target (.success r)).2.streaming = false
        ∧ (∀ kv, kv ∈ (proxy_request req target (.success r)).1.headers ↔
            (kv ∈ req.headers ∧ hop_by_hop.contains (lowerStr kv.1) = false))
        ∧ (∀ kv, kv ∈ (proxy_request req target (.success r)).2.headers ↔
            (kv ∈ r.headers ∧ hop_by_hop.contains (lowerStr kv.1) = false
              ∧ (lowerStr kv.1) ≠ "content-encoding"))) := by
  intro req target r hsse
  refine ⟨?_, ?_, ?_, ?_, ?_⟩
  · simp only [proxy_request, hsse, if_false, Bool.false_eq_true]
  · simp only [proxy_request, hsse, if_false, Bool.false_eq_true]
  · simp only [proxy_request, hsse, if_false, Bool.false_eq_true]
  · intro kv
    simp only [proxy_request, strip_hop, List.mem_filter, Bool.not_eq_true']
  · intro kv
    simp only [proxy_request, hsse, if_false, Bool.false_eq_true,
      List.mem_filter, Bool.and_eq_true, Bool.not_eq_true',
      decide_eq_true_eq]

/-- Witness for C7 at a concrete request/response pair: the upstream
`content-type` is `text/plain` (not an event stream), so the theorem
applies; it yields that the upstream's `Upgrade` and `Content-Encoding`
headers are stripped while `x-data` survives, and that the request's
`Host` header is stripped while `accept` survives. -/
theorem C7_header_stripping_witness :
    (("Upgrade", "h2") ∉
        (proxy_request { headers := [("Host", "a"), ("accept", "x")] }
          "http://u"
          (.success { status_code := 201,
                      headers := [("content-type", "text/plain"),
                                  ("Upgrade", "h2"),
                                  ("Content-Encoding", "gzip"),
                                  ("x-data", "1")] })).2.headers)
    ∧ (("x-data", "1") ∈
        (proxy_request { headers := [("Host", "a"), ("accept", "x")] }
          "http://u"
          (.success { status_code := 201,
                      headers := [("content-type", "text/plain"),
                                  ("Upgrade", "h2"),
                                  ("Content-Encoding", "gzip"),
                                  ("x-data", "1")] })).2.headers)
    ∧ (("Host", "a") ∉
        (proxy_request { headers := [("Host", "a"), ("accept", "x")] }
          "http://u"
          (.success { status_code := 201,
                      headers := [("content-type", "text/plain"),
                                  ("Upgrade", "h2"),
                                  ("Content-Encoding", "gzip"),
                                  ("x-data", "1")] })).1.headers)
    ∧ (("accept", "x") ∈
        (proxy_request { headers := [("Host", "a"), ("accept", "x")] }
          "http://u"
          (.success { status_code := 201,
                      headers := [("content-type", "text/plain"),
                                  ("Upgrade", "h2"),
                                  ("Content-Encoding", "gzip"),
                                  ("x-data", "1")] })).1.headers) := by
  have h := C7_header_stripping
    { headers := [("Host", "a"), ("accept", "x")] } "http://u"
    { status_code := 201,
      headers := [("content-type", "text/plain"), ("Upgrade", "h2"),
                  ("Content-Encoding", "gzip"), ("x-data", "1")] }
    (by decide)
  refine ⟨?_, ?_, ?_, ?_⟩
  · intro hmem
    have := (h.2.2.2.2 ("Upgrade", "h2")).mp hmem
    revert this
    decide
  · exact (h.2.2.2.2 ("x-data", "1")).mpr (by decide)
  · intro hmem
    have := (h.2.2.2.1 ("Host", "a")).mp hmem
    revert this
    decide
  · exact (h.2.2.2.1 ("accept", "x")).mpr (by decide)


/-- C9 counterexample: on the command `run '' x` the shell-word split
succeeds and an image token (the empty string produced by `''`) is
found, so the claim's failure condition does not hold — yet
`parse_docker_run` fails, because the source's emptiness check
`if not result.image` treats the empty image string as missing. -/
theorem C9_counterexample :
    parse_docker_run "run '' x" = Except.error "未找到 Docker 镜像名称" ∧
    spec_parse_fails "run '' x" = false :=
  ⟨rfl, rfl⟩

/-- C9 (amended): `parse_docker_run` fails exactly when shell-word
splitting fails on unbalanced quoting, or no image token is found after
skipping the leading `docker`/`run` tokens, or the image token found is
the empty string (a quoted empty word), which the source's truthiness
check conflates with a missing image. -/
theorem C9_parse_failure_condition (command : String) :
    (∃ e, parse_docker_run command = Except.error e) ↔
      (spec_parse_fails command = true ∨
       ∃ toks, shlexSplit (cleanCommand command) = some toks ∧
         findImage (toks.dropWhile (fun t => t = "docker" ∨ t = "run")) = some "") := by
  unfold parse_docker_run spec_parse_fails
  dsimp only
  cases hs : shlexSplit (cleanCommand command) with
  | none =>
    simp
  | some toks =>
    dsimp only
    by_cases hnil : toks = []
    · subst hnil
      simp [findImage, List.dropWhile]
    · rw [if_neg hnil]
      have himg : (parseLoop (toks.dropWhile (fun t => t = "docker" ∨ t = "run"))
          { raw_command := trimStr command }).image =
          (findImage (toks.dropWhile (fun t => t = "docker" ∨ t = "run"))).getD "" :=
        parseLoop_image _ _
      by_cases h0 :
          (parseLoop (toks.dropWhile (fun t => t = "docker" ∨ t = "run"))
            { raw_command := trimStr command }).image = ""
      · rw [if_pos h0]
        rw [h0] at himg
        constructor
        · intro _
          cases hf : findImage (toks.dropWhile (fun t => t = "docker" ∨ t = "run")) with
          | none => left; simp [hf]
          | some v =>
            right
            refine ⟨toks, rfl, ?_⟩
            rw [hf] at himg ⊢
            simpa using himg.symm
        · intro _
          exact ⟨_, rfl⟩
      · rw [if_neg h0]
        constructor
        · rintro ⟨e, he⟩
          cases he
        · rintro (hin | ⟨toks', hts, hf⟩)
          · rw [Option.isNone_iff_eq_none] at hin
            rw [hin] at himg
            exact absurd himg h0
          · cases Option.some.inj hts
            rw [hf] at himg
            exact absurd himg h0



def c10cfg : ContainerConfig := { name := "svc", image := "img" }

def c10info : ContainerInfo := { name := "svc", config := c10cfg }

def c10state : ManagerState :=
  { config := { statsMap := [("svc", { name := "svc" })] },
    containerInfo := [("svc", c10info)] }

def c10oracle : EngineOracle := {}

/-- C10: the alignment invariant — every stats record is keyed by its
own name, every cached `ContainerInfo` is keyed by its own name, and
every cached info's name owns a stats record (the shared record that
Python's `info.stats` aliases, whose `name` field `__post_init__` makes
equal to `info.name`) — holds of the empty initial state, implies the
claim's per-info property, and is preserved by every lifecycle
operation of the manager. -/
theorem C10_stats_name_invariant (o : EngineOracle)
    (engine : List (String × EngineContainer)) (now : Nat) (name : String)
    (config : ContainerConfig) (imp : Bool) (s : ManagerState)
    (h : stats_aligned s = true) :
    (∀ p ∈ s.containerInfo, ∃ st,
        lookupA s.config.statsMap p.2.name = some st ∧ st.name = p.2.name) ∧
    stats_aligned ({} : ManagerState) = true ∧
    stats_aligned (create_container o now config imp s).1 = true ∧
    stats_aligned (sync_containers engine s) = true ∧
    stats_aligned (start_container o now name s).1 = true ∧
    stats_aligned (stop_container name s).1 = true ∧
    stats_aligned (restart_container engine now name s).1 = true ∧
    stats_aligned (remove_container name s).1 = true ∧
    stats_aligned (health_update engine s) = true ∧
    stats_aligned (record_request now name s) = true := by
  refine ⟨?_, rfl, create_container_aligned h, sync_containers_aligned h,
    start_container_aligned h, stop_container_aligned h,
    restart_container_aligned h, remove_container_aligned h,
    health_update_aligned h, record_request_aligned h⟩
  intro p hp
  have h1 := (stats_aligned_iff.mp h).2.2 p hp
  obtain ⟨st, hst⟩ := Option.isSome_iff_exists.mp h1
  exact ⟨st, hst, smOK_lookup (smOK_of_aligned h) hst⟩

/-- C10 witness: the invariant checker evaluates to `true` on a
concrete one-container state, and the invariant theorem applies to it
at concrete arguments. -/
theorem C10_stats_name_invariant_witness :
    stats_aligned c10state = true ∧
    ((∀ p ∈ c10state.containerInfo, ∃ st,
        lookupA c10state.config.statsMap p.2.name = some st ∧
        st.name = p.2.name) ∧
     stats_aligned ({} : ManagerState) = true ∧
     stats_aligned (create_container c10oracle 7 c10cfg false c10state).1
       = true ∧
     stats_aligned (sync_containers [] c10state) = true ∧
     stats_aligned (start_container c10oracle 7 "svc" c10state).1 = true ∧
     stats_aligned (stop_container "svc" c10state).1 = true ∧
     stats_aligned (restart_container [] 7 "svc" c10state).1 = true ∧
     stats_aligned (remove_container "svc" c10state).1 = true ∧
     stats_aligned (health_update [] c10state) = true ∧
     stats_aligned (record_request 7 "svc" c10state) = true) :=
  ⟨by decide,
   C10_stats_name_invariant c10oracle [] 7 "svc" c10cfg false c10state
     (by decide)⟩

end DockerGateway
